import Mathlib

/-!
# Verification of the agent-runtime task orchestration engine

Shallow embedding of the core of `app/services/agent_service.py`,
`app/services/websocket_manager.py` and `app/controllers/task_controller.py`:
the task lifecycle state machine, the deterministic workspace identity
scheme (URL normalization, SHA-1 hashing, marker commit), the subprocess
supervision outcome logic, the per-task log broadcaster and the bulk
cleanup coordinator.  Stateful Python code is embedded as explicit state
passing; filesystem and process effects are represented by explicit
environments that record the outcome of each external operation.
-/

namespace AgentRuntime

/-! ## String helpers

Python string primitives used by the service (`str.lower`, `str.strip`,
`str.rstrip('/')`, substring tests, `str.join`) modelled over `List Char`
so that every definition evaluates by kernel reduction.
-/

/-- UTF-8 encoding of a single character as its list of bytes
(each a `Nat < 256`), mirroring `str.encode()` in Python. -/
def utf8CharBytes (c : Char) : List Nat :=
  let n := c.toNat
  if n < 128 then [n]
  else if n < 2048 then [192 + n / 64, 128 + n % 64]
  else if n < 65536 then [224 + n / 4096, 128 + (n / 64) % 64, 128 + n % 64]
  else [240 + n / 262144, 128 + (n / 4096) % 64, 128 + (n / 64) % 64, 128 + n % 64]

/-- UTF-8 bytes of a string, mirroring `s.encode()`. -/
def strBytes (s : String) : List Nat :=
  (s.data.map utf8CharBytes).flatten

/-- `str.lower()` (ASCII range, which covers the URLs the service handles). -/
def lowerStr (s : String) : String :=
  String.mk (s.data.map Char.toLower)

/-- `str.strip()`: remove leading and trailing whitespace. -/
def trimStr (s : String) : String :=
  String.mk (((s.data.dropWhile Char.isWhitespace).reverse.dropWhile Char.isWhitespace).reverse)

/-- `str.rstrip('/')`: remove all trailing `'/'` characters. -/
def rstripSlashes (s : String) : String :=
  String.mk ((s.data.reverse.dropWhile (fun c => c == '/')).reverse)

/-- First `n` characters of a string (`s[:n]` in Python). -/
def takeStr (s : String) (n : Nat) : String :=
  String.mk (s.data.take n)

/-- Does `needle` occur at the head of `hay`? -/
def listLeads : List Char → List Char → Bool
  | [], _ => true
  | _ :: _, [] => false
  | a :: as, b :: bs => a == b && listLeads as bs

/-- Does `needle` occur anywhere inside `hay`? -/
def listHasSub (needle : List Char) : List Char → Bool
  | [] => needle.isEmpty
  | b :: bs => listLeads needle (b :: bs) || listHasSub needle bs

/-- Python's `needle in hay` substring test. -/
def containsStr (hay needle : String) : Bool :=
  listHasSub needle.data hay.data

/-- Python's `'\n'.join(lines)`. -/
def joinLines : List String → String
  | [] => ""
  | [l] => l
  | l :: rest => l ++ "\n" ++ joinLines rest

/-! ## SHA-1

Executable embedding of `hashlib.sha1(...).hexdigest()` used by
`create_task` (workspace hash) and `_initialize_git_repo_for_app`
(deterministic commit timestamp).  32-bit words are `Nat` reduced
modulo `2^32 = 4294967296` at every arithmetic step.
-/

/-- Rotate a 32-bit word (a `Nat < 2^32`) left by `k` bits. -/
def rotl32 (k x : Nat) : Nat :=
  ((x <<< k) % 4294967296) ||| (x >>> (32 - k))

/-- The SHA-1 round function for round `i`. -/
def sha1F (i b c d : Nat) : Nat :=
  if i < 20 then (b &&& c) ||| ((b ^^^ 4294967295) &&& d)
  else if i < 40 then b ^^^ c ^^^ d
  else if i < 60 then (b &&& c) ||| (b &&& d) ||| (c &&& d)
  else b ^^^ c ^^^ d

/-- The SHA-1 round constant for round `i`. -/
def sha1K (i : Nat) : Nat :=
  if i < 20 then 1518500249
  else if i < 40 then 1859775393
  else if i < 60 then 2400959708
  else 3395469782

/-- SHA-1 padding: append `0x80`, zero bytes and the 64-bit big-endian
bit length so the total length is a multiple of 64 bytes. -/
def sha1Pad (msg : List Nat) : List Nat :=
  let len := msg.length
  let zeros := (119 - (len % 64)) % 64
  msg ++ [128] ++ List.replicate zeros 0
      ++ ((List.range 8).reverse.map (fun i => ((len * 8) >>> (8 * i)) % 256))

/-- Big-endian interpretation of a byte list as one word. -/
def beWord (bytes : List Nat) : Nat :=
  bytes.foldl (fun a b => a * 256 + b) 0

/-- Split a byte list into 64-byte chunks (fuel-driven so it reduces). -/
def chunks64 : Nat → List Nat → List (List Nat)
  | 0, _ => []
  | _, [] => []
  | fuel + 1, l => l.take 64 :: chunks64 fuel (l.drop 64)

/-- Split a 64-byte chunk into sixteen 32-bit big-endian words. -/
def words16 : Nat → List Nat → List Nat
  | 0, _ => []
  | _, [] => []
  | fuel + 1, l => beWord (l.take 4) :: words16 fuel (l.drop 4)

/-- Extend the 16 message words to 80 by the SHA-1 word recurrence,
appending `fuel` further words. -/
def extendWords : Nat → List Nat → List Nat
  | 0, w => w
  | fuel + 1, w =>
    let n := w.length
    let x := (w.getD (n - 3) 0) ^^^ (w.getD (n - 8) 0) ^^^
             (w.getD (n - 14) 0) ^^^ (w.getD (n - 16) 0)
    extendWords fuel (w ++ [rotl32 1 x])

/-- The 80 SHA-1 rounds over the schedule `w`, starting at round `i`. -/
def sha1Rounds : List Nat → Nat → Nat × Nat × Nat × Nat × Nat → Nat × Nat × Nat × Nat × Nat
  | [], _, st => st
  | w :: ws, i, (a, b, c, d, e) =>
    let temp := (rotl32 5 a + sha1F i b c d + e + sha1K i + w) % 4294967296
    sha1Rounds ws (i + 1) (temp, a, rotl32 30 b, c, d)

/-- Process one 64-byte chunk, updating the five hash words. -/
def sha1Chunk (h : Nat × Nat × Nat × Nat × Nat) (chunk : List Nat) :
    Nat × Nat × Nat × Nat × Nat :=
  let w := extendWords 64 (words16 chunk.length chunk)
  match h, sha1Rounds w 0 h with
  | (h0, h1, h2, h3, h4), (a, b, c, d, e) =>
    ((h0 + a) % 4294967296, (h1 + b) % 4294967296, (h2 + c) % 4294967296,
     (h3 + d) % 4294967296, (h4 + e) % 4294967296)

/-- SHA-1 digest of a byte list as five 32-bit words. -/
def sha1Digest (msg : List Nat) : Nat × Nat × Nat × Nat × Nat :=
  let padded := sha1Pad msg
  (chunks64 padded.length padded).foldl sha1Chunk
    (1732584193, 4023233417, 2562383102, 271733878, 3285377520)

/-- Lowercase hex digit for a nibble. -/
def nibbleHex (n : Nat) : Char :=
  if n < 10 then Char.ofNat (48 + n) else Char.ofNat (87 + n)

/-- Eight lowercase hex digits of a 32-bit word, most significant first. -/
def word32Hex (w : Nat) : List Char :=
  (List.range 8).reverse.map (fun i => nibbleHex ((w >>> (4 * i)) % 16))

/-- `hashlib.sha1(s.encode()).hexdigest()`. -/
def sha1Hex (s : String) : String :=
  match sha1Digest (strBytes s) with
  | (h0, h1, h2, h3, h4) =>
    String.mk (word32Hex h0 ++ word32Hex h1 ++ word32Hex h2 ++ word32Hex h3 ++ word32Hex h4)

/-- Value of one hex digit (`int(c, 16)` for a valid digit, else 0;
the service only applies it to `hexdigest()` output, which is valid). -/
def hexDigitVal (c : Char) : Nat :=
  if 48 ≤ c.toNat ∧ c.toNat ≤ 57 then c.toNat - 48
  else if 97 ≤ c.toNat ∧ c.toNat ≤ 102 then c.toNat - 87
  else if 65 ≤ c.toNat ∧ c.toNat ≤ 70 then c.toNat - 55
  else 0

/-- `int(s, 16)` for a hex string. -/
def hexToNat (s : String) : Nat :=
  s.data.foldl (fun a c => a * 16 + hexDigitVal c) 0

/-! ## Association lists

Python `dict`s (`self.tasks`, `self._running_processes`,
`self.connections`) are embedded as association lists with unique keys
in insertion order; `aupdate` is `d[k] = v`, `aerase` is `d.pop(k, None)`,
`alookup` is `d.get(k)`.
-/

/-- `d.get(k)` on a Python dict. -/
def alookup {α : Type} (l : List (String × α)) (k : String) : Option α :=
  match l with
  | [] => none
  | (k', v) :: rest => if k' = k then some v else alookup rest k

/-- `d[k] = v` on a Python dict: replace in place, or append a new key. -/
def aupdate {α : Type} (l : List (String × α)) (k : String) (v : α) :
    List (String × α) :=
  match l with
  | [] => [(k, v)]
  | (k', v') :: rest => if k' = k then (k', v) :: rest else (k', v') :: aupdate rest k v

/-- `d.pop(k, None)` on a Python dict: drop every binding of `k` (a
Python dict holds at most one, so this is exactly `pop` on the states
the service builds). -/
def aerase {α : Type} (l : List (String × α)) (k : String) : List (String × α) :=
  match l with
  | [] => []
  | (k', v') :: rest => if k' = k then aerase rest k else (k', v') :: aerase rest k

/-- Decidable equality for `Except` results (used only to evaluate
concrete witness instances). -/
instance {ε α : Type} [DecidableEq ε] [DecidableEq α] : DecidableEq (Except ε α)
  | .error e1, .error e2 =>
    if h : e1 = e2 then .isTrue (h ▸ rfl)
    else .isFalse (fun hh => h (Except.error.inj hh))
  | .error _, .ok _ => .isFalse (fun hh => Except.noConfusion hh)
  | .ok _, .error _ => .isFalse (fun hh => Except.noConfusion hh)
  | .ok a1, .ok a2 =>
    if h : a1 = a2 then .isTrue (h ▸ rfl)
    else .isFalse (fun hh => h (Except.ok.inj hh))

/-! ## Data model

`TaskStatus`, `Task` from `app/models/__init__.py` (fields not touched by
the verified claims — timestamps, artifact records, phase — are omitted;
they never influence the control flow embedded here).
-/

/-- `TaskStatus` enum from `app/models/__init__.py`. -/
inductive TaskStatus
  | pending
  | initializing
  | running
  | completed
  | failed
  | cancelled
deriving DecidableEq, Repr

/-- The three terminal states of the §4.1 state machine. -/
def TaskStatus.isTerminal : TaskStatus → Bool
  | .completed => true
  | .failed => true
  | .cancelled => true
  | _ => false

/-- Core `Task` record (`app/models/__init__.py`), restricted to the
fields the verified operations read or write. -/
structure Task where
  id : String
  status : TaskStatus
  sessionPath : String
  sessionId : String
  error : Option String := none
  debugLogs : List String := []
deriving DecidableEq, Repr

/-! ## Workspace identity (`create_task`, `_initialize_git_repo_for_app`,
`_get_git_project_id`)

The git repositories seeded under each working directory are embedded as
a map from directory path to the list of root ("max-parents=0") commits
in that repository; `_initialize_git_repo_for_app` creates exactly one
deterministic marker commit.  The git object hash itself is an external
computation (the `git` binary), taken as a parameter `gHash`: equal
commit data yields equal hashes.
-/

/-- `configuration.app_url.lower().strip().rstrip('/')`
(`agent_service.py:343`). -/
def normalizeUrl (url : String) : String :=
  rstripSlashes (trimStr (lowerStr url))

/-- `hashlib.sha1(normalized_url.encode()).hexdigest()[:APP_HASH_LENGTH]`
with `APP_HASH_LENGTH = 12` (`agent_service.py:344`). -/
def appHashOf (appUrl : String) : String :=
  takeStr (sha1Hex (normalizeUrl appUrl)) 12

/-- `f"app-{app_hash}"` (`agent_service.py:345`). -/
def appProjectIdOf (appUrl : String) : String :=
  "app-" ++ appHashOf appUrl

/-- `settings.session_root / app_project_id / session_id`
(`agent_service.py:348`), as a path string.  Note it is a function of
the session root, the target URL and the session id only — the task id
does not occur. -/
def workingDirFor (sessionRoot appUrl sessionId : String) : String :=
  sessionRoot ++ "/" ++ appProjectIdOf appUrl ++ "/" ++ sessionId

/-- Deterministic marker-commit timestamp
(`agent_service.py:690-694`): fixed epoch Jan 1 2022 plus the first 8
hex digits of the URL hash, modulo one day. -/
def deterministicTimestamp (appUrl : String) : Nat :=
  let normalized := normalizeUrl appUrl
  let appHash := sha1Hex normalized
  let hashInt := hexToNat (takeStr appHash 8)
  1640995200 + hashInt % 86400

/-- The data of the single marker commit created by
`_initialize_git_repo_for_app` (`agent_service.py:661-746`): the
`.gitkeep` content (raw URL), the commit message (normalized URL), the
fixed identity, and `GIT_AUTHOR_DATE` / `GIT_COMMITTER_DATE` both set to
the deterministic timestamp. -/
structure MarkerCommit where
  fileContent : String
  message : String
  authorName : String
  authorEmail : String
  authorDate : Nat
  committerDate : Nat
deriving DecidableEq, Repr

/-- The marker commit `_initialize_git_repo_for_app` creates for `appUrl`. -/
def markerCommitFor (appUrl : String) : MarkerCommit :=
  { fileContent := "Project for: " ++ appUrl ++ "\n"
  , message := "Initial commit for " ++ normalizeUrl appUrl
  , authorName := "OpenCode Agent"
  , authorEmail := "agent@opencode.local"
  , authorDate := deterministicTimestamp appUrl
  , committerDate := deterministicTimestamp appUrl }

/-- On-disk git state: directory path ↦ root commits of the repository
there (`(directory / ".git").exists()` ⟺ the key is present). -/
structure GitFs where
  repos : List (String × List MarkerCommit)
deriving DecidableEq

/-- `_initialize_git_repo_for_app` (`agent_service.py:661-746`): no-op if
the repository already exists, otherwise seed it with the single marker
commit. -/
def initializeGitRepoForApp (fs : GitFs) (dir : String) (appUrl : String) : GitFs :=
  if (alookup fs.repos dir).isSome then fs
  else { repos := aupdate fs.repos dir [markerCommitFor appUrl] }

/-- `sorted(commit_hashes)[0]`: the least element of a list of hashes
(`agent_service.py:650-653`), `none` on an empty list. -/
def sortedHead (l : List String) : Option String :=
  l.foldl (fun acc h =>
    match acc with
    | none => some h
    | some m => some (if h < m then h else m)) none

/-- `_get_git_project_id` (`agent_service.py:623-659`): `none` when no
repository or no commits exist at `dir`, otherwise the sorted earliest
root-commit hash. -/
def getGitProjectId (gHash : MarkerCommit → String) (fs : GitFs) (dir : String) :
    Option String :=
  (alookup fs.repos dir).bind (fun commits => sortedHead (commits.map gHash))

/-! ## Service state and task registry operations -/

/-- One tracked subprocess (`self._running_processes` value);
`returncode` is `process.returncode` (`none` while running). -/
structure ProcEntry where
  returncode : Option Int
deriving DecidableEq, Repr

/-- The mutable state of `AgentService`: `self.tasks`,
`self._running_processes`, plus the git repositories on disk. -/
structure AgentState where
  tasks : List (String × Task)
  runningProcesses : List (String × ProcEntry)
  fs : GitFs
deriving DecidableEq

/-- `AgentService.cancel_task` (`agent_service.py:394-419`): returns
`False` only for an unknown task id; otherwise terminates and
unregisters any tracked process and sets the status to `cancelled` —
unconditionally, whatever the current status is. -/
def cancel_task (st : AgentState) (tid : String) : Bool × AgentState :=
  match alookup st.tasks tid with
  | none => (false, st)
  | some task =>
    -- terminate (graceful, then kill after 5s) and unregister the process, if tracked
    let procs := aerase st.runningProcesses tid
    -- `task.status = TaskStatus.cancelled` with no check of the current status
    let tasks := aupdate st.tasks tid { task with status := .cancelled }
    (true, { st with tasks := tasks, runningProcesses := procs })

/-- The status assignment at the end of `AgentService.execute_task`
(`agent_service.py:451-456`): `completed` on success, else `failed` with
`error_detail or "Task execution failed with unknown error"` — applied
whatever the task's current status is. -/
def applyPipelineResult (t : Task) (success : Bool) (errorDetail : String) : Task :=
  if success then { t with status := .completed }
  else { t with status := .failed
              , error := some (if errorDetail = "" then
                  "Task execution failed with unknown error" else errorDetail) }

/-- Failure injection for the filesystem/git side effects of
`create_task`: whether `mkdir(parents=True)` and the
`git init … git commit` sequence succeed for a given directory. -/
structure CreateEnv where
  mkdirOk : String → Bool
  gitInitOk : String → Bool

/-- `AgentService.create_task` (`agent_service.py:338-384`).  The task
record is inserted into `self.tasks` *before* the workspace setup; a
setup failure raises (modelled as `.error`) but the insertion is never
rolled back.  On success the verified git project id is returned with
the task. -/
def create_task (env : CreateEnv) (gHash : MarkerCommit → String)
    (sessionRoot : String) (st : AgentState)
    (taskId appUrl sessionId : String) :
    Except String (Task × String) × AgentState :=
  let workingDir := workingDirFor sessionRoot appUrl sessionId
  let task : Task :=
    { id := taskId, status := .pending, sessionPath := workingDir, sessionId := sessionId }
  -- `self.tasks[task_id] = task` (line 362): happens before any setup
  let st1 := { st with tasks := aupdate st.tasks taskId task }
  if env.mkdirOk workingDir then
    -- `_initialize_git_repo_for_app`: skipped when `.git` exists, else commit
    let initialized : Option GitFs :=
      if (alookup st1.fs.repos workingDir).isSome then some st1.fs
      else if env.gitInitOk workingDir then
        some (initializeGitRepoForApp st1.fs workingDir appUrl)
      else none
    match initialized with
    | none =>
      (.error "Task creation failed: Git repository initialization failed", st1)
    | some fs2 =>
      let st2 := { st1 with fs := fs2 }
      -- read-back verification: `_get_git_project_id` must yield an id
      match getGitProjectId gHash fs2 workingDir with
      | some pid => (.ok (task, pid), st2)
      | none =>
        (.error ("Task creation failed: Failed to initialize git repository in "
                  ++ workingDir), st2)
  else
    (.error ("Failed to create task working directory " ++ workingDir), st1)

/-- `AgentService.get_task` (`agent_service.py:386-388`). -/
def get_task (st : AgentState) (tid : String) : Option Task :=
  alookup st.tasks tid

/-! ## Process supervision (`_execute_opencode_pipeline`, lines 869-1026)

The external process is described by its observable behavior: the lines
it writes to each stream, whether it exits by itself within the
wall-clock timeout, its exit code if so, and whether it honors a
graceful `terminate()` within the short grace window (else the
supervisor escalates to `kill()`).  The streaming/termination logic of
lines 887-1003 is embedded as a function of that behavior.
-/

/-- `OPENCODE_TIMEOUT_SECONDS = 7200` (`agent_service.py:25`). -/
def OPENCODE_TIMEOUT_SECONDS : Nat := 7200

/-- The sentinel substring scanned for on stderr (`agent_service.py:916`). -/
def sessionIdleSentinel : String := "session.idle"

/-- Observable behavior of one spawned external process. -/
structure ProcessBehavior where
  stdoutLines : List String
  stderrLines : List String
  exitsWithinTimeout : Bool
  exitCode : Int
  exitsOnTerminate : Bool
deriving DecidableEq

/-- How the process ended: by itself, by a graceful `terminate()`, or by
the escalated `kill()` after the grace window.  Every constructor is a
non-running end state; the supervisor never leaves the process alive. -/
inductive ProcEnd
  | exitedSelf (code : Int)
  | termGraceful
  | termKilled
deriving DecidableEq, Repr

/-- `terminate()` followed by a bounded wait, then `kill()` on
`asyncio.TimeoutError` — the escalation used on sentinel detection
(lines 920-926), timeout (lines 977-982) and cancel (lines 406-411). -/
def terminateEscalate (exitsOnTerminate : Bool) : ProcEnd :=
  if exitsOnTerminate then .termGraceful else .termKilled

/-- The `session.idle` scan of `stream_stderr` (`agent_service.py:903-930`):
a stderr line containing the sentinel sets `session_idle_detected`.
(Lines are `rstrip`ped and empty lines skipped; a line containing the
sentinel is necessarily non-empty, so the scan reduces to a substring
test over the produced lines.) -/
def sentinelDetected (stderrLines : List String) : Bool :=
  stderrLines.any (fun l => containsStr l sessionIdleSentinel)

/-- Result of the supervision phase of `_execute_opencode_pipeline`. -/
structure SupervisionResult where
  success : Bool
  detail : String
  procEnd : ProcEnd
  debugNotes : List String
deriving DecidableEq

/-- The failure message assembled at `agent_service.py:995-1003` for a
non-zero exit code (`f"Agent '…' failed with exit code …"` plus command,
working directory and captured output tails). -/
def buildErrorMsg (agent : String) (rc : Int) (cmdStr wd stdoutJ stderrJ : String) :
    String :=
  let base := "Agent '" ++ agent ++ "' failed with exit code " ++ toString rc ++ "\n"
      ++ "Command: " ++ cmdStr ++ "\n"
      ++ "Working directory: " ++ wd ++ "\n"
  let withOut := if trimStr stdoutJ = "" then base
      else base ++ "STDOUT: " ++ trimStr stdoutJ ++ "\n"
  if trimStr stderrJ = "" then withOut
  else withOut ++ "STDERR: " ++ trimStr stderrJ

/-- The exit-code to outcome mapping shared by all supervision paths
(`agent_service.py:995-1020`). -/
def superviseOutcome (agent : String) (rc : Int) (cmdStr wd stdoutJ stderrJ : String) :
    Bool × String :=
  if rc ≠ 0 then (false, buildErrorMsg agent rc cmdStr wd stdoutJ stderrJ)
  else (true, "All agents completed successfully")

/-- The supervision tail of `_execute_opencode_pipeline`
(`agent_service.py:887-1020`): sentinel detection forces termination and
`returncode = 0` (treated as success, lines 915-930 and 970-973); a
wall-clock timeout forces termination and `returncode = -1`
(lines 975-987); otherwise the process's own exit code is authoritative. -/
def runSupervision (b : ProcessBehavior) (cmdStr wd : String) : SupervisionResult :=
  let idleDetected := sentinelDetected b.stderrLines
  let stdoutJ := joinLines b.stdoutLines
  let stderrJ := joinLines b.stderrLines
  if idleDetected then
    -- stream_stderr terminates the process; main flow sets returncode = 0
    let pe := terminateEscalate b.exitsOnTerminate
    let (succ, detail) := superviseOutcome "build" 0 cmdStr wd stdoutJ stderrJ
    { success := succ, detail := detail, procEnd := pe
    , debugNotes :=
        [ "Detected session.idle - OpenCode work completed, terminating process"
        , "Process terminated after session.idle - treating as successful completion" ] }
  else if b.exitsWithinTimeout then
    let (succ, detail) := superviseOutcome "build" b.exitCode cmdStr wd stdoutJ stderrJ
    { success := succ, detail := detail, procEnd := .exitedSelf b.exitCode
    , debugNotes := [] }
  else
    -- asyncio.TimeoutError branch: terminate/kill, returncode = -1
    let pe := terminateEscalate b.exitsOnTerminate
    let (succ, detail) := superviseOutcome "build" (-1) cmdStr wd stdoutJ stderrJ
    { success := succ, detail := detail, procEnd := pe
    , debugNotes := ["OpenCode process timed out, terminating..."] }

/-- `AgentService.execute_task` (`agent_service.py:421-481`) specialized
to one external-process run: status walks
`pending → initializing → running`, the process is registered for the
duration of the supervision and unregistered afterwards
(lines 885 and 984/992), and the terminal status is assigned by
`applyPipelineResult`.  Returns the pipeline success flag, the
supervision result, and the new state. -/
def execute_task (st : AgentState) (tid : String) (b : ProcessBehavior)
    (cmdStr wd : String) : Bool × Option SupervisionResult × AgentState :=
  match alookup st.tasks tid with
  | none => (false, none, st)
  | some task =>
    let t2 := { task with status := .running }
    let stRun := { st with tasks := aupdate st.tasks tid t2
                         , runningProcesses := aupdate st.runningProcesses tid ⟨none⟩ }
    let res := runSupervision b cmdStr wd
    let t3 := applyPipelineResult t2 res.success res.detail
    let stDone := { stRun with
        tasks := aupdate stRun.tasks tid t3
      , runningProcesses := aerase stRun.runningProcesses tid }
    (res.success, some res, stDone)

/-! ## Log broadcaster (`app/services/websocket_manager.py`) and the
stream-connect handler (`app/controllers/task_controller.py:104-161`)

Observers (websocket connection objects) are numbered by `Nat`.  Whether
`websocket.send_text` raises for a given observer is injected through
`SendEnv`; the broadcaster catches the exception and disconnects exactly
that observer.
-/

/-- The three streamed event kinds of §4.5. -/
inductive WsEvent
  | debug (level : String) (message : String)
  | statusEv (status : TaskStatus) (phase : Option String)
  | complete (success : Bool) (error : Option String)
deriving DecidableEq, Repr

/-- `WebSocketManager` state: `self.connections` (task id ↦ list of
connected clients, in connection order) and `self.active_connections`. -/
structure WsManager where
  connections : List (String × List Nat)
  activeConnections : List Nat
deriving DecidableEq

/-- Whether `websocket.send_text` raises for a given client. -/
structure SendEnv where
  sendFails : Nat → Bool

/-- `WebSocketManager.connect` (`websocket_manager.py:21-31`): append the
client to the task's list (creating it) and add it to the active set. -/
def wsConnect (m : WsManager) (c : Nat) (tid : String) : WsManager :=
  let cur := (alookup m.connections tid).getD []
  { connections := aupdate m.connections tid (cur ++ [c])
  , activeConnections :=
      if c ∈ m.activeConnections then m.activeConnections
      else m.activeConnections ++ [c] }

/-- `WebSocketManager.disconnect` (`websocket_manager.py:33-44`): remove
one occurrence of the client from the task's list, drop the key if the
list empties, and discard the client from the active set. -/
def wsDisconnect (m : WsManager) (c : Nat) (tid : String) : WsManager :=
  let conns :=
    match alookup m.connections tid with
    | none => m.connections
    | some lst =>
      let lst' := lst.erase c
      if lst' = [] then aerase m.connections tid else aupdate m.connections tid lst'
  { connections := conns
  , activeConnections := m.activeConnections.filter (fun x => x ≠ c) }

/-- One pass of the send loop of `_send_to_clients`
(`websocket_manager.py:51-56`): deliveries to the clients whose send
succeeds (in list order) and the list of clients whose send raised
(the exception is caught). -/
def sendLoop (env : SendEnv) (ev : WsEvent) : List Nat → List Nat × List (Nat × WsEvent)
  | [] => ([], [])
  | c :: rest =>
    let (ds, dl) := sendLoop env ev rest
    if env.sendFails c then (c :: ds, dl) else (ds, (c, ev) :: dl)

/-- `WebSocketManager._send_to_clients` (`websocket_manager.py:46-60`):
silent no-op when the task has no registered observers; otherwise send
to every observer, then disconnect exactly the ones whose send raised.
Returns the new manager state and the deliveries made. -/
def sendToClients (env : SendEnv) (m : WsManager) (tid : String) (ev : WsEvent) :
    WsManager × List (Nat × WsEvent) :=
  match alookup m.connections tid with
  | none => (m, [])
  | some clients =>
    let (disconnected, delivered) := sendLoop env ev clients
    (disconnected.foldl (fun acc c => wsDisconnect acc c tid) m, delivered)

/-- Broadcast a sequence of events for one task, accumulating deliveries
(the live phase after a connect, and the replay loop body). -/
def broadcastAll (env : SendEnv) (m : WsManager) (tid : String) :
    List WsEvent → WsManager × List (Nat × WsEvent)
  | [] => (m, [])
  | ev :: evs =>
    let (m1, d1) := sendToClients env m tid ev
    let (m2, d2) := broadcastAll env m1 tid evs
    (m2, d1 ++ d2)

/-- The replay a late joiner triggers in `stream_task_logs`
(`task_controller.py:113-130`): the current status event followed by one
debug event per accumulated `task.debug_logs` line, in list order. -/
def replayEvents (task : Task) : List WsEvent :=
  WsEvent.statusEv task.status none :: task.debugLogs.map (fun l => WsEvent.debug "DEBUG" l)

/-- `stream_task_logs` connect path: register the observer, then send
the replay (each send goes through `_send_to_clients`). -/
def connectAndReplay (env : SendEnv) (m : WsManager) (task : Task) (c : Nat) :
    WsManager × List (Nat × WsEvent) :=
  let m1 := wsConnect m c task.id
  broadcastAll env m1 task.id (replayEvents task)

/-- The events a given client received from a delivery log, in order. -/
def receivedBy (c : Nat) (deliveries : List (Nat × WsEvent)) : List WsEvent :=
  (deliveries.filter (fun p => p.1 == c)).map (fun p => p.2)

/-! ## Cleanup coordinator (`cleanup_all_sessions`,
`agent_service.py:1028-1144`, and the endpoint
`task_controller.py:182-231`)

Disk state is embedded as the list of `app-*` directories under the
session root, each with its session subdirectories and a flag for
non-directory entries the session loop does not touch.  The outcome of
each destructive operation is injected through `CleanupEnv`:
`DelOutcome.ok` (deleted and verified gone), `raises` (the call threw),
`persists` (the call returned but the post-delete `exists()` check still
finds the path).
-/

/-- Outcome of one `shutil.rmtree` / `rmdir` call. -/
inductive DelOutcome
  | ok
  | raises
  | persists
deriving DecidableEq, Repr

/-- One `app-*` directory under the session root. -/
structure AppDirState where
  name : String
  sessionDirs : List String
  hasOtherEntries : Bool
deriving DecidableEq, Repr

/-- Disk state seen by the cleanup coordinator. -/
structure CleanupFs where
  appDirs : List AppDirState
  opencodeStorageExists : Bool
deriving DecidableEq

/-- Outcomes of the destructive filesystem operations. -/
structure CleanupEnv where
  rmtreeSession : String → DelOutcome
  rmdirApp : String → DelOutcome
  rmtreeOpencode : DelOutcome
  opencodeMkdirOk : Bool

/-- Path of a session directory: `session_root / app-name / session`. -/
def sessionPathStr (root appName s : String) : String :=
  root ++ "/" ++ appName ++ "/" ++ s

/-- Path of an `app-*` directory. -/
def appPathStr (root appName : String) : String :=
  root ++ "/" ++ appName

/-- The inner session loop (`agent_service.py:1055-1069`): delete each
session directory, verify, count successes, record failed paths, and
keep failed directories on disk.  Returns
(deleted count, failed paths, remaining session dirs, deleted paths). -/
def processSessions (env : CleanupEnv) (root appName : String) :
    List String → Nat × List String × List String × List String
  | [] => (0, [], [], [])
  | s :: rest =>
    let p := sessionPathStr root appName s
    let r := processSessions env root appName rest
    match env.rmtreeSession p with
    | .ok => (r.1 + 1, r.2.1, r.2.2.1, p :: r.2.2.2)
    | .raises => (r.1, p :: r.2.1, s :: r.2.2.1, r.2.2.2)
    | .persists => (r.1, p :: r.2.1, s :: r.2.2.1, r.2.2.2)

/-- One `app-*` directory pass (`agent_service.py:1053-1086`): process
the sessions, then remove the app directory if it is now empty,
recording a failure (verify-or-record) when the removal fails.  Returns
(deleted sessions, session failures, app failures, remaining dir if
kept, deleted session paths). -/
def cleanupAppDir (env : CleanupEnv) (root : String) (a : AppDirState) :
    Nat × List String × List String × Option AppDirState × List String :=
  let r := processSessions env root a.name a.sessionDirs
  if r.2.2.1.isEmpty && !a.hasOtherEntries then
    match env.rmdirApp (appPathStr root a.name) with
    | .ok => (r.1, r.2.1, [], none, r.2.2.2)
    | _ =>
      (r.1, r.2.1, [appPathStr root a.name],
       some { a with sessionDirs := r.2.2.1 }, r.2.2.2)
  else
    (r.1, r.2.1, [], some { a with sessionDirs := r.2.2.1 }, r.2.2.2)

/-- The loop over all `app-*` directories. -/
def cleanupAppDirs (env : CleanupEnv) (root : String) :
    List AppDirState → Nat × List String × List String × List AppDirState × List String
  | [] => (0, [], [], [], [])
  | a :: rest =>
    let r1 := cleanupAppDir env root a
    let r2 := cleanupAppDirs env root rest
    (r1.1 + r2.1, r1.2.1 ++ r2.2.1, r1.2.2.1 ++ r2.2.2.1,
     (match r1.2.2.2.1 with | none => r2.2.2.2.1 | some a' => a' :: r2.2.2.2.1),
     r1.2.2.2.2 ++ r2.2.2.2.2)

/-- The structured result of `cleanup_all_sessions`
(the tuple returned at `agent_service.py:1140` with its `failures` dict). -/
structure CleanupReport where
  deletedSessions : Nat
  deletedTasks : Nat
  deletedOpencodeStorage : Bool
  sessionFailures : List String
  appFailures : List String
  opencodeFailure : Bool
deriving DecidableEq, Repr

/-- `AgentService.cleanup_all_sessions` (`agent_service.py:1028-1144`):
shut down all processes, clear the in-memory registry, delete every
session directory (verify-or-record), remove emptied app directories
(verify-or-record), then delete the OpenCode storage tree
(`_detect_opencode_storage_path` first re-creates a missing storage
directory, lines 518-534; its deletion failure is caught and flagged,
never raised).  Individual path failures are aggregated in the report,
never thrown. -/
def cleanup_all_sessions (env : CleanupEnv) (root : String)
    (st : AgentState) (fs : CleanupFs) : CleanupReport × AgentState × CleanupFs :=
  let deletedTasks := st.tasks.length
  -- step 1: shutdown_all_processes (terminates and clears the registry),
  -- then self.tasks.clear() / self._task_locks.clear()
  let r := cleanupAppDirs env root fs.appDirs
  -- deleted session directories take their seeded git repositories with them
  let fsGit : GitFs :=
    ⟨r.2.2.2.2.foldl (fun acc p => aerase acc p) st.fs.repos⟩
  let st' : AgentState := { tasks := [], runningProcesses := [], fs := fsGit }
  -- OpenCode storage: detect (re-creating if missing), rmtree, verify;
  -- the triple is (deleted, failed, still-exists)
  let oc : Bool × Bool × Bool :=
    if !fs.opencodeStorageExists && !env.opencodeMkdirOk then
      -- _detect_opencode_storage_path raised; caught at line 1118
      (false, true, false)
    else
      match env.rmtreeOpencode with
      | .ok => (true, false, false)
      | .raises => (false, true, true)
      | .persists => (false, true, true)
  let report : CleanupReport :=
    { deletedSessions := r.1
    , deletedTasks := deletedTasks
    , deletedOpencodeStorage := oc.1
    , sessionFailures := r.2.1
    , appFailures := r.2.2.1
    , opencodeFailure := oc.2.1 }
  (report, st', { appDirs := r.2.2.2.1, opencodeStorageExists := oc.2.2 })

/-- `CleanupFailures` payload (`app/models/__init__.py:163-167`). -/
structure CleanupFailuresPayload where
  failedSessionDeletions : List String
  failedAppDeletions : List String
  opencodeDeletionFailed : Bool
  totalFailures : Nat
deriving DecidableEq, Repr

/-- The HTTP response of `DELETE /cleanup/all`
(`task_controller.py:182-231` and `CleanupResponse` in the models). -/
structure CleanupHttpResponse where
  statusCode : Nat
  message : String
  deletedSessions : Nat
  deletedTasks : Nat
  deletedOpencodeStorage : Bool
  totalSessionDirectories : Nat
  success : Bool
  failures : Option CleanupFailuresPayload
deriving DecidableEq, Repr

/-- The `cleanup_all_sessions` endpoint (`task_controller.py:182-231`):
count the session directories, run the service cleanup, and return a
200 response whose payload carries the counts and, when anything
failed, the structured failure details (`success = false` only in the
payload — the transport status stays 200). -/
def cleanupEndpoint (env : CleanupEnv) (root : String)
    (st : AgentState) (fs : CleanupFs) :
    CleanupHttpResponse × AgentState × CleanupFs :=
  let sessionCount := (fs.appDirs.map (fun a => a.sessionDirs.length)).sum
  let r := (cleanup_all_sessions env root st fs).1
  let hasFailures :=
    !r.sessionFailures.isEmpty || !r.appFailures.isEmpty || r.opencodeFailure
  let resp : CleanupHttpResponse :=
    { statusCode := 200
    , message := if hasFailures then
        "Cleanup completed with some failures - see details below"
      else "All sessions and storage cleaned up successfully"
    , deletedSessions := r.deletedSessions
    , deletedTasks := r.deletedTasks
    , deletedOpencodeStorage := r.deletedOpencodeStorage
    , totalSessionDirectories := sessionCount
    , success := !hasFailures
    , failures :=
        if hasFailures then
          some { failedSessionDeletions := r.sessionFailures
               , failedAppDeletions := r.appFailures
               , opencodeDeletionFailed := r.opencodeFailure
               , totalFailures := r.sessionFailures.length + r.appFailures.length
                   + (if r.opencodeFailure then 1 else 0) }
        else none }
  (resp, (cleanup_all_sessions env root st fs).2.1,
   (cleanup_all_sessions env root st fs).2.2)

/-! ## Concrete instances used by witnesses and counterexamples -/

/-- Environment in which every filesystem/git operation succeeds. -/
def allOkCreateEnv : CreateEnv := ⟨fun _ => true, fun _ => true⟩

/-- Environment in which creating the working directory fails. -/
def failMkdirEnv : CreateEnv := ⟨fun _ => false, fun _ => true⟩

/-- A fixed stand-in for the external git object hash. -/
def constHash : MarkerCommit → String := fun _ => "c0ffee"

/-- The spec's example target URL. -/
def sampleUrl : String := "https://example.com/app"

/-- The same target in mixed case with a trailing slash. -/
def sampleUrlMixed : String := "https://Example.com/App/"

/-- A service state holding one already-completed task `"t1"`. -/
def stWithCompleted : AgentState :=
  { tasks := [("t1", { id := "t1", status := .completed
                     , sessionPath := "./sessions/app-x/s1", sessionId := "s1" })]
  , runningProcesses := [], fs := ⟨[]⟩ }

/-- A service state holding one pending task `"t1"` about to execute. -/
def stWithPending : AgentState :=
  { tasks := [("t1", { id := "t1", status := .pending
                     , sessionPath := "./sessions/app-x/s1", sessionId := "s1" })]
  , runningProcesses := [], fs := ⟨[]⟩ }

/-- The empty service state. -/
def emptyState : AgentState := { tasks := [], runningProcesses := [], fs := ⟨[]⟩ }

/-- A process that prints the sentinel to stderr, would never exit on
its own within the timeout, and ignores the graceful terminate. -/
def idleBehavior : ProcessBehavior :=
  { stdoutLines := ["working"]
  , stderrLines := ["INFO service=session event=session.idle"]
  , exitsWithinTimeout := false, exitCode := 1, exitsOnTerminate := false }

/-- A silent process that never exits within the wall-clock timeout. -/
def timeoutBehavior : ProcessBehavior :=
  { stdoutLines := [], stderrLines := []
  , exitsWithinTimeout := false, exitCode := 0, exitsOnTerminate := true }

/-- A process that exits by itself with code `-1`. -/
def exitMinusOneBehavior : ProcessBehavior :=
  { stdoutLines := [], stderrLines := []
  , exitsWithinTimeout := true, exitCode := -1, exitsOnTerminate := true }

/-- A send environment in which no observer's send ever raises. -/
def allOkSendEnv : SendEnv := ⟨fun _ => false⟩

/-- A send environment in which exactly observer `1` raises on send. -/
def failOneSendEnv : SendEnv := ⟨fun c => c == 1⟩

/-- An empty broadcaster. -/
def emptyWs : WsManager := { connections := [], activeConnections := [] }

/-- A broadcaster with observers `1` (about to fail) and `2` on `"t1"`. -/
def wsWithTwo : WsManager :=
  { connections := [("t1", [1, 2])], activeConnections := [1, 2] }

/-- A task that has already accumulated two debug-log lines. -/
def taskWithLogs : Task :=
  { id := "t1", status := .running, sessionPath := "./sessions/app-x/s1"
  , sessionId := "s1", debugLogs := ["[10:00:00] line one", "[10:00:01] line two"] }

/-- A cleanup environment in which every deletion succeeds. -/
def allOkCleanupEnv : CleanupEnv :=
  { rmtreeSession := fun _ => .ok, rmdirApp := fun _ => .ok
  , rmtreeOpencode := .ok, opencodeMkdirOk := true }

/-- A cleanup environment in which deleting `./s/app-a/x` raises. -/
def failOneCleanupEnv : CleanupEnv :=
  { rmtreeSession := fun p => if p = "./s/app-a/x" then .raises else .ok
  , rmdirApp := fun _ => .ok, rmtreeOpencode := .ok, opencodeMkdirOk := true }

/-- A disk state with one app directory holding sessions `x` and `y`. -/
def fsOneApp : CleanupFs :=
  { appDirs := [{ name := "app-a", sessionDirs := ["x", "y"], hasOtherEntries := false }]
  , opencodeStorageExists := true }

/-- A disk state with a second app directory that keeps stray files. -/
def fsTwoApps : CleanupFs :=
  { appDirs :=
      [ { name := "app-a", sessionDirs := ["x"], hasOtherEntries := false }
      , { name := "app-b", sessionDirs := ["y"], hasOtherEntries := true } ]
  , opencodeStorageExists := false }

/-! # Theorems

## Association-list lemmas
-/

theorem alookup_aupdate_self {α : Type} (l : List (String × α)) (k : String) (v : α) :
    alookup (aupdate l k v) k = some v := by
  induction l with
  | nil => simp [aupdate, alookup]
  | cons hd tl ih =>
    obtain ⟨k', v'⟩ := hd
    by_cases h : k' = k
    · simp [aupdate, alookup, h]
    · simp [aupdate, alookup, h, ih]

theorem alookup_aupdate_ne {α : Type} (l : List (String × α)) (k k' : String) (v : α)
    (h : k ≠ k') : alookup (aupdate l k v) k' = alookup l k' := by
  induction l with
  | nil => simp [aupdate, alookup, h]
  | cons hd tl ih =>
    obtain ⟨k'', v''⟩ := hd
    by_cases hk : k'' = k
    · subst hk; simp [aupdate, alookup, h]
    · simp [aupdate, alookup, hk, ih]

theorem alookup_aerase_self {α : Type} (l : List (String × α)) (k : String) :
    alookup (aerase l k) k = none := by
  induction l with
  | nil => simp [aerase, alookup]
  | cons hd tl ih =>
    obtain ⟨k', v'⟩ := hd
    by_cases h : k' = k
    · simp [aerase, h, ih]
    · simp [aerase, alookup, h, ih]

/-! ## C1 — terminal statuses and cancellation -/

/-- C1 counterexample: terminal statuses are not absorbing.  `completed`
is terminal, yet `cancel_task` on a task that already completed
rewrites its status to `cancelled`; symmetrically, the completion
assignment of `execute_task` rewrites a `cancelled` status to
`completed`. -/
theorem C1_counterexample :
    TaskStatus.isTerminal TaskStatus.completed = true ∧
    (get_task (cancel_task stWithCompleted "t1").2 "t1").map Task.status =
      some TaskStatus.cancelled ∧
    TaskStatus.isTerminal TaskStatus.cancelled = true ∧
    (applyPipelineResult
      { id := "t2", status := TaskStatus.cancelled
      , sessionPath := "p", sessionId := "s" } true "").status =
      TaskStatus.completed := by
  decide

/-- C1 (amended): cancellation and completion do not respect terminal
states.  `cancel_task` returns `False` exactly when the task id is
unknown; on any known task — terminal or not — it sets the status to
`cancelled`; and the completion path of `execute_task`
(`applyPipelineResult`) sets `completed`/`failed` whatever the current
status is, including `cancelled`. -/
theorem C1_cancel_and_complete_unconditional (st : AgentState) (tid : String) :
    ((cancel_task st tid).1 = false ↔ alookup st.tasks tid = none) ∧
    (∀ t, alookup st.tasks tid = some t →
      get_task (cancel_task st tid).2 tid = some { t with status := .cancelled } ∧
      alookup (cancel_task st tid).2.runningProcesses tid = none) ∧
    (∀ (t : Task) (success : Bool) (err : String),
      (applyPipelineResult t success err).status =
        if success then TaskStatus.completed else TaskStatus.failed) := by
  refine ⟨?_, ?_, ?_⟩
  · unfold cancel_task
    cases h : alookup st.tasks tid <;> simp [h]
  · intro t h
    unfold cancel_task get_task
    rw [h]
    exact ⟨alookup_aupdate_self .., alookup_aerase_self ..⟩
  · intro t success err
    unfold applyPipelineResult
    cases success <;> simp

/-- Witness for C1: instantiates the amended theorem on the concrete
state whose only task has already completed. -/
theorem C1_cancel_and_complete_unconditional_witness :
    get_task (cancel_task stWithCompleted "t1").2 "t1" =
      some { id := "t1", status := .cancelled
           , sessionPath := "./sessions/app-x/s1", sessionId := "s1" } ∧
    alookup (cancel_task stWithCompleted "t1").2.runningProcesses "t1" = none :=
  (C1_cancel_and_complete_unconditional stWithCompleted "t1").2.1
    { id := "t1", status := .completed
    , sessionPath := "./sessions/app-x/s1", sessionId := "s1" } (by decide)

/-! ## C10 — task creation is not atomic with the registry -/

/-- In every branch of `create_task` — success or failure — the task
registry already holds the new pending record
(`self.tasks[task_id] = task` at line 362 precedes all setup). -/
theorem create_task_tasks (env : CreateEnv) (gHash : MarkerCommit → String)
    (root : String) (st : AgentState) (tid url sid : String) :
    (create_task env gHash root st tid url sid).2.tasks =
      aupdate st.tasks tid
        { id := tid, status := .pending
        , sessionPath := workingDirFor root url sid, sessionId := sid } := by
  simp only [create_task]
  split
  · split
    · rfl
    · split <;> rfl
  · rfl

/-- C10: when workspace setup fails, `create_task` reports the error but
the already-inserted task record is not removed: it stays queryable via
`get_task` with status `pending`. -/
theorem C10_create_failure_leaves_pending_task
    (env : CreateEnv) (gHash : MarkerCommit → String) (root : String)
    (st : AgentState) (tid url sid e : String)
    (_h : (create_task env gHash root st tid url sid).1 = Except.error e) :
    get_task (create_task env gHash root st tid url sid).2 tid =
      some { id := tid, status := .pending
           , sessionPath := workingDirFor root url sid, sessionId := sid } := by
  unfold get_task
  rw [create_task_tasks]
  exact alookup_aupdate_self ..

set_option maxRecDepth 1000000 in
/-- Witness for C10: with directory creation failing, creating a task
for the sample URL errors out, yet the pending record is still there. -/
theorem C10_create_failure_leaves_pending_task_witness :
    (create_task failMkdirEnv constHash "./s" emptyState "tid0" sampleUrl "s1").1 =
      Except.error "Failed to create task working directory ./s/app-9bbd3e200d24/s1" ∧
    get_task (create_task failMkdirEnv constHash "./s" emptyState "tid0" sampleUrl "s1").2
        "tid0" =
      some { id := "tid0", status := .pending
           , sessionPath := workingDirFor "./s" sampleUrl "s1", sessionId := "s1" } :=
  ⟨by decide,
   C10_create_failure_leaves_pending_task failMkdirEnv constHash "./s" emptyState
     "tid0" sampleUrl "s1"
     "Failed to create task working directory ./s/app-9bbd3e200d24/s1" (by decide)⟩

/-! ## C2 — deterministic workspace identity -/

/-- The working directory depends on the target URL only through its
normalization. -/
theorem workingDirFor_congr (root sid u1 u2 : String)
    (h : normalizeUrl u1 = normalizeUrl u2) :
    workingDirFor root u1 sid = workingDirFor root u2 sid := by
  unfold workingDirFor appProjectIdOf appHashOf
  rw [h]

/-- A successful project-id read-back implies the repository exists. -/
theorem getGitProjectId_isSome (gHash : MarkerCommit → String) (fs : GitFs)
    (dir pid : String) (h : getGitProjectId gHash fs dir = some pid) :
    (alookup fs.repos dir).isSome = true := by
  unfold getGitProjectId at h
  cases hl : alookup fs.repos dir <;> simp [hl] at h ⊢

/-- What a successful `create_task` returns: the pending record rooted
at the derived working directory, and a project id read back from the
resulting git state at that directory. -/
theorem create_task_ok_parts (env : CreateEnv) (gHash : MarkerCommit → String)
    (root : String) (st : AgentState) (tid url sid : String) (task : Task) (pid : String)
    (h : (create_task env gHash root st tid url sid).1 = Except.ok (task, pid)) :
    task = { id := tid, status := .pending
           , sessionPath := workingDirFor root url sid, sessionId := sid } ∧
    getGitProjectId gHash (create_task env gHash root st tid url sid).2.fs
      (workingDirFor root url sid) = some pid := by
  cases hmk : env.mkdirOk (workingDirFor root url sid) with
  | false => simp [create_task, hmk] at h
  | true =>
    cases hrepo : (alookup st.fs.repos (workingDirFor root url sid)).isSome with
    | true =>
      cases hpid : getGitProjectId gHash st.fs (workingDirFor root url sid) with
      | none => simp [create_task, hmk, hrepo, hpid] at h
      | some p =>
        simp [create_task, hmk, hrepo, hpid] at h ⊢
        exact ⟨h.1.symm, h.2 ▸ rfl⟩
    | false =>
      cases hgit : env.gitInitOk (workingDirFor root url sid) with
      | false => simp [create_task, hmk, hrepo, hgit] at h
      | true =>
        cases hpid : getGitProjectId gHash
            (initializeGitRepoForApp st.fs (workingDirFor root url sid) url)
            (workingDirFor root url sid) with
        | none => simp [create_task, hmk, hrepo, hgit, hpid] at h
        | some p =>
          simp [create_task, hmk, hrepo, hgit, hpid] at h ⊢
          exact ⟨h.1.symm, h.2 ▸ rfl⟩

/-- When the repository already exists at the derived working
directory, `create_task` leaves the git state untouched (step 3 of §4.2
is skipped). -/
theorem create_task_fs_of_exists (env : CreateEnv) (gHash : MarkerCommit → String)
    (root : String) (st : AgentState) (tid url sid : String)
    (hrepo : (alookup st.fs.repos (workingDirFor root url sid)).isSome = true) :
    (create_task env gHash root st tid url sid).2.fs = st.fs := by
  cases hmk : env.mkdirOk (workingDirFor root url sid) with
  | false => simp [create_task, hmk]
  | true =>
    cases hpid : getGitProjectId gHash st.fs (workingDirFor root url sid) with
    | none => simp [create_task, hmk, hrepo, hpid]
    | some p => simp [create_task, hmk, hrepo, hpid]

/-- C2: two successful task creations whose target URLs normalize to
the same string and that share a session id resolve the same working
directory (a function of the normalized-URL hash and the session id
only — `workingDirFor` takes no task id) and read back the same
external project id. -/
theorem C2_workspace_identity
    (env : CreateEnv) (gHash : MarkerCommit → String) (root : String)
    (st : AgentState) (tid1 tid2 u1 u2 sid : String)
    (task1 task2 : Task) (pid1 pid2 : String)
    (hnorm : normalizeUrl u1 = normalizeUrl u2)
    (h1 : (create_task env gHash root st tid1 u1 sid).1 = Except.ok (task1, pid1))
    (h2 : (create_task env gHash root (create_task env gHash root st tid1 u1 sid).2
            tid2 u2 sid).1 = Except.ok (task2, pid2)) :
    task1.sessionPath = workingDirFor root u1 sid ∧
    task1.sessionPath = task2.sessionPath ∧ pid1 = pid2 := by
  have hwd : workingDirFor root u2 sid = workingDirFor root u1 sid :=
    workingDirFor_congr root sid u2 u1 hnorm.symm
  obtain ⟨ht1, hp1⟩ := create_task_ok_parts env gHash root st tid1 u1 sid task1 pid1 h1
  obtain ⟨ht2, hp2⟩ := create_task_ok_parts env gHash root _ tid2 u2 sid task2 pid2 h2
  have hex : (alookup (create_task env gHash root st tid1 u1 sid).2.fs.repos
      (workingDirFor root u2 sid)).isSome = true := by
    rw [hwd]
    exact getGitProjectId_isSome gHash _ _ pid1 hp1
  have hfs := create_task_fs_of_exists env gHash root
    (create_task env gHash root st tid1 u1 sid).2 tid2 u2 sid hex
  rw [hfs, hwd, hp1] at hp2
  refine ⟨by rw [ht1], ?_, ?_⟩
  · rw [ht1, ht2]
    simpa using hwd.symm
  · exact Option.some.inj hp2

set_option maxRecDepth 1000000 in
/-- Witness for C2: creating a task for `https://Example.com/App/` and
then one for `https://example.com/app`, both under session `s1`, yields
the same workspace path and the same project id. -/
theorem C2_workspace_identity_witness :
    normalizeUrl sampleUrlMixed = normalizeUrl sampleUrl ∧
    ({ id := "t1", status := .pending
     , sessionPath := workingDirFor "./s" sampleUrlMixed "s1"
     , sessionId := "s1" } : Task).sessionPath = workingDirFor "./s" sampleUrlMixed "s1" ∧
    ({ id := "t1", status := .pending
     , sessionPath := workingDirFor "./s" sampleUrlMixed "s1"
     , sessionId := "s1" } : Task).sessionPath =
      ({ id := "t2", status := .pending
       , sessionPath := workingDirFor "./s" sampleUrl "s1"
       , sessionId := "s1" } : Task).sessionPath ∧
    "c0ffee" = "c0ffee" :=
  ⟨by decide,
   C2_workspace_identity allOkCreateEnv constHash "./s" emptyState "t1" "t2"
     sampleUrlMixed sampleUrl "s1" _ _ "c0ffee" "c0ffee"
     (by decide) (by decide) (by decide)⟩

/-! ## C9 — deterministic marker-commit timestamp and identity -/

/-- C9: the marker commit's author and committer timestamps are the
fixed epoch `1640995200` plus the first 8 hex digits of the normalized
URL's SHA-1 hash modulo `86400` — a pure function of the URL, with no
clock input — and initializing a fresh workspace for the same URL twice
yields the same commit data and hence the same project id. -/
theorem C9_deterministic_marker_commit
    (gHash : MarkerCommit → String) (url dir : String) (fs1 fs2 : GitFs)
    (h1 : alookup fs1.repos dir = none) (h2 : alookup fs2.repos dir = none) :
    (markerCommitFor url).authorDate =
        1640995200 + hexToNat (takeStr (sha1Hex (normalizeUrl url)) 8) % 86400 ∧
    (markerCommitFor url).committerDate = (markerCommitFor url).authorDate ∧
    getGitProjectId gHash (initializeGitRepoForApp fs1 dir url) dir =
      some (gHash (markerCommitFor url)) ∧
    getGitProjectId gHash (initializeGitRepoForApp fs1 dir url) dir =
      getGitProjectId gHash (initializeGitRepoForApp fs2 dir url) dir := by
  have key : ∀ fs : GitFs, alookup fs.repos dir = none →
      getGitProjectId gHash (initializeGitRepoForApp fs dir url) dir =
        some (gHash (markerCommitFor url)) := by
    intro fs h
    unfold initializeGitRepoForApp
    rw [h]
    simp only [Option.isSome_none, Bool.false_eq_true, if_false]
    unfold getGitProjectId
    rw [alookup_aupdate_self]
    simp [sortedHead]
  exact ⟨rfl, rfl, key fs1 h1, (key fs1 h1).trans (key fs2 h2).symm⟩

set_option maxRecDepth 1000000 in
/-- Witness for C9: on an empty disk, initializing the sample URL's
workspace produces the marker commit and its concretely computed
timestamp `1641043488 = 1640995200 + (0x9bbd3e20 mod 86400)`. -/
theorem C9_deterministic_marker_commit_witness :
    alookup (⟨[]⟩ : GitFs).repos "d" = none ∧
    getGitProjectId constHash (initializeGitRepoForApp ⟨[]⟩ "d" sampleUrl) "d" =
      some (constHash (markerCommitFor sampleUrl)) ∧
    deterministicTimestamp sampleUrl = 1641043488 ∧
    (markerCommitFor sampleUrl).authorDate = 1641043488 :=
  ⟨rfl,
   (C9_deterministic_marker_commit constHash sampleUrl "d" ⟨[]⟩ ⟨[]⟩ rfl rfl).2.2.1,
   by decide, by decide⟩

/-! ## C3 — sentinel detection ends the process and completes the task -/

/-- Under sentinel detection, `runSupervision` reports success with the
terminated process end. -/
theorem runSupervision_idle (b : ProcessBehavior) (cmd wd : String)
    (hidle : sentinelDetected b.stderrLines = true) :
    (runSupervision b cmd wd).success = true ∧
    (runSupervision b cmd wd).detail = "All agents completed successfully" ∧
    (runSupervision b cmd wd).procEnd = terminateEscalate b.exitsOnTerminate := by
  simp [runSupervision, hidle, superviseOutcome]

/-- C3: when the external process writes a stderr line containing the
`session.idle` sentinel, the supervisor terminates it (graceful, then
forced kill) and treats the run as successful: the task ends
`completed`, not `failed`, and no process for the task remains
registered or running. -/
theorem C3_sentinel_completes
    (st : AgentState) (tid : String) (task : Task) (b : ProcessBehavior)
    (cmd wd : String)
    (htask : alookup st.tasks tid = some task)
    (hidle : sentinelDetected b.stderrLines = true) :
    (execute_task st tid b cmd wd).1 = true ∧
    (alookup (execute_task st tid b cmd wd).2.2.tasks tid).map Task.status =
      some TaskStatus.completed ∧
    alookup (execute_task st tid b cmd wd).2.2.runningProcesses tid = none ∧
    (execute_task st tid b cmd wd).2.1 = some (runSupervision b cmd wd) ∧
    (runSupervision b cmd wd).procEnd = terminateEscalate b.exitsOnTerminate ∧
    (runSupervision b cmd wd).detail = "All agents completed successfully" := by
  obtain ⟨hsucc, hdetail, hend⟩ := runSupervision_idle b cmd wd hidle
  unfold execute_task
  rw [htask]
  refine ⟨hsucc, ?_, alookup_aerase_self .., rfl, hend, hdetail⟩
  rw [alookup_aupdate_self]
  simp [applyPipelineResult, hsucc]

/-- Witness for C3: a process that prints the sentinel but would
neither exit on its own nor honor a graceful terminate still ends with
the task `completed`. -/
theorem C3_sentinel_completes_witness :
    alookup stWithPending.tasks "t1" =
      some { id := "t1", status := .pending
           , sessionPath := "./sessions/app-x/s1", sessionId := "s1" } ∧
    sentinelDetected idleBehavior.stderrLines = true ∧
    (execute_task stWithPending "t1" idleBehavior "opencode run" "/w").1 = true ∧
    (alookup (execute_task stWithPending "t1" idleBehavior "opencode run" "/w").2.2.tasks
        "t1").map Task.status = some TaskStatus.completed ∧
    alookup (execute_task stWithPending "t1" idleBehavior
        "opencode run" "/w").2.2.runningProcesses "t1" = none ∧
    (runSupervision idleBehavior "opencode run" "/w").procEnd = ProcEnd.termKilled := by
  have h := C3_sentinel_completes stWithPending "t1"
    { id := "t1", status := .pending
    , sessionPath := "./sessions/app-x/s1", sessionId := "s1" }
    idleBehavior "opencode run" "/w" (by decide) (by decide)
  exact ⟨by decide, by decide, h.1, h.2.1, h.2.2.1, by decide⟩

/-! ## C4 — timeout failure is not surfaced as a timeout -/

/-- C4 counterexample: a process exceeding the wall-clock timeout does
fail the task, but the surfaced error is the generic
`Agent 'build' failed with exit code -1` message — byte-identical to
the ordinary `ProcessError` a self-exiting process with code `-1`
produces, and containing no timeout wording at all. -/
theorem C4_counterexample :
    ((execute_task stWithPending "t1" timeoutBehavior "opencode run" "/w").2.1.map
        SupervisionResult.detail) =
      ((execute_task stWithPending "t1" exitMinusOneBehavior "opencode run" "/w").2.1.map
        SupervisionResult.detail) ∧
    (alookup (execute_task stWithPending "t1" timeoutBehavior
        "opencode run" "/w").2.2.tasks "t1").map Task.status =
      some TaskStatus.failed ∧
    ((execute_task stWithPending "t1" timeoutBehavior "opencode run" "/w").2.1.map
        SupervisionResult.detail) =
      some (buildErrorMsg "build" (-1) "opencode run" "/w" "" "") ∧
    containsStr (buildErrorMsg "build" (-1) "opencode run" "/w" "" "") "timeout" = false ∧
    containsStr (buildErrorMsg "build" (-1) "opencode run" "/w" "" "") "timed out" = false ∧
    containsStr (buildErrorMsg "build" (-1) "opencode run" "/w" "" "") "Timeout" = false := by
  decide

/-- Under an expired wall-clock timeout (and no sentinel), the
supervisor records `returncode = -1` and reports the generic failure
message; the timeout itself is noted only in the debug narrative. -/
theorem runSupervision_timeout (b : ProcessBehavior) (cmd wd : String)
    (hnoidle : sentinelDetected b.stderrLines = false)
    (htimeout : b.exitsWithinTimeout = false) :
    (runSupervision b cmd wd).success = false ∧
    (runSupervision b cmd wd).detail =
      buildErrorMsg "build" (-1) cmd wd (joinLines b.stdoutLines)
        (joinLines b.stderrLines) ∧
    (runSupervision b cmd wd).debugNotes =
      ["OpenCode process timed out, terminating..."] ∧
    (runSupervision b cmd wd).procEnd = terminateEscalate b.exitsOnTerminate := by
  simp [runSupervision, hnoidle, htimeout, superviseOutcome]

/-- C4 (amended): a task whose process exceeds the 7200-second timeout
reaches `failed` and no process of the task remains registered or
running (terminate, then kill after the grace window), but its error is
the generic exit-code `-1` `ProcessError` message rather than a
distinctly surfaced timeout error; only the debug log records the
timeout. -/
theorem C4_timeout_fails_generically
    (st : AgentState) (tid : String) (task : Task) (b : ProcessBehavior)
    (cmd wd : String)
    (htask : alookup st.tasks tid = some task)
    (hnoidle : sentinelDetected b.stderrLines = false)
    (htimeout : b.exitsWithinTimeout = false) :
    (execute_task st tid b cmd wd).1 = false ∧
    (alookup (execute_task st tid b cmd wd).2.2.tasks tid).map Task.status =
      some TaskStatus.failed ∧
    alookup (execute_task st tid b cmd wd).2.2.runningProcesses tid = none ∧
    (execute_task st tid b cmd wd).2.1 = some (runSupervision b cmd wd) ∧
    (runSupervision b cmd wd).detail =
      buildErrorMsg "build" (-1) cmd wd (joinLines b.stdoutLines)
        (joinLines b.stderrLines) ∧
    (runSupervision b cmd wd).debugNotes =
      ["OpenCode process timed out, terminating..."] ∧
    (runSupervision b cmd wd).procEnd = terminateEscalate b.exitsOnTerminate := by
  obtain ⟨hsucc, hdetail, hnotes, hend⟩ := runSupervision_timeout b cmd wd hnoidle htimeout
  unfold execute_task
  rw [htask]
  refine ⟨hsucc, ?_, alookup_aerase_self .., rfl, hdetail, hnotes, hend⟩
  rw [alookup_aupdate_self]
  simp [applyPipelineResult, hsucc]

/-- Witness for C4: the silent never-exiting process on the concrete
pending state. -/
theorem C4_timeout_fails_generically_witness :
    sentinelDetected timeoutBehavior.stderrLines = false ∧
    timeoutBehavior.exitsWithinTimeout = false ∧
    (execute_task stWithPending "t1" timeoutBehavior "opencode run" "/w").1 = false ∧
    (alookup (execute_task stWithPending "t1" timeoutBehavior
        "opencode run" "/w").2.2.tasks "t1").map Task.status =
      some TaskStatus.failed ∧
    alookup (execute_task stWithPending "t1" timeoutBehavior
        "opencode run" "/w").2.2.runningProcesses "t1" = none ∧
    (runSupervision timeoutBehavior "opencode run" "/w").debugNotes =
      ["OpenCode process timed out, terminating..."] := by
  have h := C4_timeout_fails_generically stWithPending "t1"
    { id := "t1", status := .pending
    , sessionPath := "./sessions/app-x/s1", sessionId := "s1" }
    timeoutBehavior "opencode run" "/w" (by decide) (by decide) (by decide)
  exact ⟨by decide, by decide, h.1, h.2.1, h.2.2.1, h.2.2.2.2.2.1⟩

/-! ## Broadcaster lemmas (shared by C8 and C5) -/

/-- Every client the send loop marks for disconnection had a failing send. -/
theorem sendLoop_fails_of_mem (env : SendEnv) (ev : WsEvent) :
    ∀ cl c, c ∈ (sendLoop env ev cl).1 → env.sendFails c = true := by
  intro cl
  induction cl with
  | nil => intro c h; simp [sendLoop] at h
  | cons c' rest ih =>
    intro c h
    cases hf : env.sendFails c' <;> simp [sendLoop, hf] at h
    · exact ih c h
    · rcases h with h | h
      · rw [h]; exact hf
      · exact ih c h

/-- Every connected client whose send fails is marked for disconnection. -/
theorem sendLoop_mem_of_fails (env : SendEnv) (ev : WsEvent) :
    ∀ cl c, c ∈ cl → env.sendFails c = true → c ∈ (sendLoop env ev cl).1 := by
  intro cl
  induction cl with
  | nil => intro c h; simp at h
  | cons c' rest ih =>
    intro c h hf
    rcases List.mem_cons.mp h with h | h
    · subst h
      simp [sendLoop, hf]
    · cases hf' : env.sendFails c' with
      | false =>
        simp only [sendLoop, hf', Bool.false_eq_true, if_false]
        exact ih c h hf
      | true =>
        simp only [sendLoop, hf', if_true]
        exact List.mem_cons_of_mem c' (ih c h hf)

/-- The deliveries of one send pass: the event goes to exactly the
clients whose send succeeds, in connection order. -/
theorem sendLoop_deliveries (env : SendEnv) (ev : WsEvent) :
    ∀ cl, (sendLoop env ev cl).2 =
      (cl.filter (fun c => !env.sendFails c)).map (fun c => (c, ev)) := by
  intro cl
  induction cl with
  | nil => rfl
  | cons c rest ih =>
    cases hf : env.sendFails c <;> simp [sendLoop, hf, ih]

/-- One `wsDisconnect` erases one occurrence of the client from the
task's list (observed through the default-empty lookup, which also
covers the deleted-key case). -/
theorem wsDisconnect_connections (m : WsManager) (d : Nat) (tid : String) :
    (alookup (wsDisconnect m d tid).connections tid).getD [] =
      ((alookup m.connections tid).getD []).erase d := by
  unfold wsDisconnect
  cases hl : alookup m.connections tid with
  | none => simp [hl]
  | some lst =>
    by_cases he : lst.erase d = []
    · simp [hl, he, alookup_aerase_self]
    · simp [hl, he, alookup_aupdate_self]

/-- `wsDisconnect` filters the client out of the active set. -/
theorem wsDisconnect_active (m : WsManager) (d : Nat) (tid : String) :
    (wsDisconnect m d tid).activeConnections =
      m.activeConnections.filter (fun x => x ≠ d) := rfl

/-- The disconnect fold of `_send_to_clients` erases the listed clients
one occurrence each from the task's connection list. -/
theorem disconnectFold_connections (tid : String) :
    ∀ (ds : List Nat) (m : WsManager),
      (alookup ((ds.foldl (fun acc c => wsDisconnect acc c tid) m)).connections
          tid).getD [] =
        ds.foldl (fun l c => l.erase c) ((alookup m.connections tid).getD []) := by
  intro ds
  induction ds with
  | nil => intro m; rfl
  | cons d ds ih =>
    intro m
    simp only [List.foldl_cons]
    rw [ih (wsDisconnect m d tid), wsDisconnect_connections]

/-- Erasing elements none of which equals `c` commutes with a `c` at
the head. -/
theorem eraseFold_cons_ne (c : Nat) :
    ∀ (ds : List Nat) (cl : List Nat), (∀ d ∈ ds, d ≠ c) →
      ds.foldl (fun l x => l.erase x) (c :: cl) =
        c :: ds.foldl (fun l x => l.erase x) cl := by
  intro ds
  induction ds with
  | nil => intro cl _; rfl
  | cons d ds ih =>
    intro cl h
    have hdc : d ≠ c := h d (List.mem_cons_self d ds)
    simp only [List.foldl_cons]
    rw [List.erase_cons_tail, ih (cl.erase d) (fun x hx => h x (List.mem_cons_of_mem d hx))]
    simp [BEq.symm_false, hdc]

/-- Erasing exactly the failing clients from the connection list leaves
exactly the clients whose send succeeded. -/
theorem eraseFold_sendLoop (env : SendEnv) (ev : WsEvent) :
    ∀ cl : List Nat,
      (sendLoop env ev cl).1.foldl (fun l x => l.erase x) cl =
        cl.filter (fun x => !env.sendFails x) := by
  intro cl
  induction cl with
  | nil => rfl
  | cons c rest ih =>
    cases hf : env.sendFails c with
    | true =>
      simp only [sendLoop, hf, if_true, List.foldl_cons, List.erase_cons_head]
      rw [ih]
      simp [hf]
    | false =>
      simp only [sendLoop, hf, Bool.false_eq_true, if_false]
      rw [eraseFold_cons_ne c (sendLoop env ev rest).1 rest
        (fun d hd => by
          intro he
          rw [he] at hd
          exact absurd (sendLoop_fails_of_mem env ev rest c hd) (by simp [hf])), ih]
      simp [hf]

/-- Clients, once absent from the active set, stay absent across the
disconnect fold. -/
theorem disconnectFold_active_preserve (tid : String) (c : Nat) :
    ∀ (ds : List Nat) (m : WsManager), c ∉ m.activeConnections →
      c ∉ ((ds.foldl (fun acc x => wsDisconnect acc x tid) m)).activeConnections := by
  intro ds
  induction ds with
  | nil => intro m h; exact h
  | cons d ds ih =>
    intro m h
    simp only [List.foldl_cons]
    refine ih (wsDisconnect m d tid) ?_
    rw [wsDisconnect_active]
    intro hmem
    exact h (List.mem_of_mem_filter hmem)

/-- Every client the fold disconnects ends up outside the active set. -/
theorem disconnectFold_active_removes (tid : String) (c : Nat) :
    ∀ (ds : List Nat) (m : WsManager), c ∈ ds →
      c ∉ ((ds.foldl (fun acc x => wsDisconnect acc x tid) m)).activeConnections := by
  intro ds
  induction ds with
  | nil => intro m h; simp at h
  | cons d ds ih =>
    intro m h
    rcases List.mem_cons.mp h with h | h
    · subst h
      simp only [List.foldl_cons]
      refine disconnectFold_active_preserve tid c ds (wsDisconnect m c tid) ?_
      rw [wsDisconnect_active]
      simp
    · simp only [List.foldl_cons]
      exact ih (wsDisconnect m d tid) h

/-! ## C8 — broadcast errors are isolated to the offending observer -/

/-- C8: `_send_to_clients` is a silent no-op when the task has no
registered observers (state unchanged, nothing delivered); otherwise the
event is delivered to exactly the observers whose send succeeds (each
non-failing observer receives it), and an observer whose send raises is
removed from the task's connection list and the active set while the
loop itself returns normally to the producer. -/
theorem C8_broadcast_isolation (env : SendEnv) (m : WsManager) (tid : String)
    (ev : WsEvent) :
    (alookup m.connections tid = none → sendToClients env m tid ev = (m, [])) ∧
    (∀ cl, alookup m.connections tid = some cl →
      (sendToClients env m tid ev).2 =
        (cl.filter (fun c => !env.sendFails c)).map (fun c => (c, ev)) ∧
      (∀ c, c ∈ cl → env.sendFails c = false →
        (c, ev) ∈ (sendToClients env m tid ev).2) ∧
      (∀ c, c ∈ cl → env.sendFails c = true →
        c ∉ ((alookup (sendToClients env m tid ev).1.connections tid).getD []) ∧
        c ∉ (sendToClients env m tid ev).1.activeConnections)) := by
  constructor
  · intro h
    unfold sendToClients
    rw [h]
  · intro cl hcl
    have hsnd : (sendToClients env m tid ev).2 = (sendLoop env ev cl).2 := by
      unfold sendToClients
      rw [hcl]
    have hfst : (sendToClients env m tid ev).1 =
        (sendLoop env ev cl).1.foldl (fun acc c => wsDisconnect acc c tid) m := by
      unfold sendToClients
      rw [hcl]
    refine ⟨hsnd.trans (sendLoop_deliveries env ev cl), ?_, ?_⟩
    · intro c hc hf
      rw [hsnd, sendLoop_deliveries env ev cl]
      exact List.mem_map.mpr ⟨c, List.mem_filter.mpr ⟨hc, by simp [hf]⟩, rfl⟩
    · intro c hc hf
      constructor
      · rw [hfst, disconnectFold_connections tid (sendLoop env ev cl).1 m, hcl]
        simp only [Option.getD_some]
        rw [eraseFold_sendLoop env ev cl]
        intro hmem
        have := List.mem_filter.mp hmem
        simp [hf] at this
      · rw [hfst]
        exact disconnectFold_active_removes tid c (sendLoop env ev cl).1 m
          (sendLoop_mem_of_fails env ev cl c hc hf)

/-- Witness for C8 on the two-observer broadcaster where observer `1`'s
send raises: only observer `2` receives the event, and `1` alone is
removed. -/
theorem C8_broadcast_isolation_witness :
    (sendToClients failOneSendEnv wsWithTwo "t1" (WsEvent.debug "DEBUG" "m")).2 =
      [(2, WsEvent.debug "DEBUG" "m")] ∧
    (2, WsEvent.debug "DEBUG" "m") ∈
      (sendToClients failOneSendEnv wsWithTwo "t1" (WsEvent.debug "DEBUG" "m")).2 ∧
    1 ∉ ((alookup (sendToClients failOneSendEnv wsWithTwo "t1"
        (WsEvent.debug "DEBUG" "m")).1.connections "t1").getD []) ∧
    1 ∉ (sendToClients failOneSendEnv wsWithTwo "t1"
        (WsEvent.debug "DEBUG" "m")).1.activeConnections := by
  have h := (C8_broadcast_isolation failOneSendEnv wsWithTwo "t1"
    (WsEvent.debug "DEBUG" "m")).2 [1, 2] (by decide)
  exact ⟨by decide, h.2.1 2 (by decide) (by decide),
    (h.2.2 1 (by decide) (by decide)).1, (h.2.2 1 (by decide) (by decide)).2⟩

/-! ## C5 — a late joiner sees status, then the full history, then live -/

/-- The observers of a task, with a missing key read as the empty list. -/
def clientsOf (m : WsManager) (tid : String) : List Nat :=
  (alookup m.connections tid).getD []

/-- `receivedBy` splits over concatenated delivery logs. -/
theorem receivedBy_append (c : Nat) (d1 d2 : List (Nat × WsEvent)) :
    receivedBy c (d1 ++ d2) = receivedBy c d1 ++ receivedBy c d2 := by
  unfold receivedBy
  rw [List.filter_append, List.map_append]

/-- What one client receives from a uniform delivery: one copy of the
event per occurrence in the recipient list. -/
theorem receivedBy_map_event (c : Nat) (ev : WsEvent) :
    ∀ l : List Nat,
      receivedBy c (l.map (fun x => (x, ev))) = List.replicate (l.count c) ev := by
  intro l
  induction l with
  | nil => rfl
  | cons x rest ih =>
    by_cases hx : x = c
    · subst hx
      simp [receivedBy, List.count_cons, List.replicate_succ] at ih ⊢
      simpa [receivedBy] using ih
    · simp [receivedBy, List.count_cons, hx, Ne.symm hx] at ih ⊢
      simpa [receivedBy] using ih

/-- Deliveries of one `_send_to_clients` pass, phrased through
`clientsOf` (covers both the missing-key no-op and the populated case). -/
theorem sendToClients_deliveries_getD (env : SendEnv) (m : WsManager)
    (tid : String) (ev : WsEvent) :
    (sendToClients env m tid ev).2 =
      ((clientsOf m tid).filter (fun c => !env.sendFails c)).map (fun c => (c, ev)) := by
  unfold sendToClients clientsOf
  cases hl : alookup m.connections tid with
  | none => simp [hl]
  | some cl => simp [hl, sendLoop_deliveries]

/-- The connection list after one `_send_to_clients` pass: the clients
whose send succeeded, in order. -/
theorem sendToClients_clients (env : SendEnv) (m : WsManager)
    (tid : String) (ev : WsEvent) :
    clientsOf (sendToClients env m tid ev).1 tid =
      (clientsOf m tid).filter (fun c => !env.sendFails c) := by
  unfold sendToClients
  cases hl : alookup m.connections tid with
  | none =>
    unfold clientsOf
    rw [hl]
    rfl
  | some cl =>
    show clientsOf ((sendLoop env ev cl).1.foldl (fun acc c => wsDisconnect acc c tid) m)
        tid = _
    unfold clientsOf
    rw [disconnectFold_connections tid (sendLoop env ev cl).1 m, hl]
    simp only [Option.getD_some]
    rw [eraseFold_sendLoop env ev cl]

/-- A healthy observer connected exactly once receives every broadcast
event, in order, and stays connected exactly once. -/
theorem broadcastAll_receivedBy (env : SendEnv) (tid : String) (c : Nat)
    (hok : env.sendFails c = false) :
    ∀ (evs : List WsEvent) (m : WsManager), (clientsOf m tid).count c = 1 →
      receivedBy c (broadcastAll env m tid evs).2 = evs ∧
      (clientsOf (broadcastAll env m tid evs).1 tid).count c = 1 := by
  intro evs
  induction evs with
  | nil => intro m h; exact ⟨rfl, h⟩
  | cons ev evs ih =>
    intro m h
    have hcount' : (clientsOf (sendToClients env m tid ev).1 tid).count c = 1 := by
      rw [sendToClients_clients, List.count_filter (by simp [hok])]
      exact h
    have hdel : receivedBy c (sendToClients env m tid ev).2 = [ev] := by
      rw [sendToClients_deliveries_getD, receivedBy_map_event,
        List.count_filter (by simp [hok]), h]
      rfl
    obtain ⟨hr, hc⟩ := ih (sendToClients env m tid ev).1 hcount'
    constructor
    · simp only [broadcastAll]
      rw [receivedBy_append, hdel, hr]
      rfl
    · simp only [broadcastAll]
      exact hc

/-- C5: an observer connecting to an existing task after it produced
its debug lines first receives the current status event, then every
accumulated debug line in production order, and only then the events
broadcast after the connection. -/
theorem C5_late_joiner_full_replay (env : SendEnv) (m : WsManager) (task : Task)
    (c : Nat) (liveEvents : List WsEvent)
    (hfresh : c ∉ clientsOf m task.id)
    (hok : env.sendFails c = false) :
    receivedBy c ((connectAndReplay env m task c).2 ++
        (broadcastAll env (connectAndReplay env m task c).1 task.id liveEvents).2) =
      (WsEvent.statusEv task.status none ::
        task.debugLogs.map (fun l => WsEvent.debug "DEBUG" l)) ++ liveEvents := by
  have hcount : (clientsOf (wsConnect m c task.id) task.id).count c = 1 := by
    unfold wsConnect clientsOf
    simp only [alookup_aupdate_self, Option.getD_some]
    rw [List.count_append]
    unfold clientsOf at hfresh
    rw [List.count_eq_zero.mpr hfresh]
    simp
  obtain ⟨hr, hc1⟩ := broadcastAll_receivedBy env task.id c hok (replayEvents task)
    (wsConnect m c task.id) hcount
  obtain ⟨hl, _⟩ := broadcastAll_receivedBy env task.id c hok liveEvents
    (connectAndReplay env m task c).1 hc1
  rw [receivedBy_append, hl]
  show receivedBy c (broadcastAll env (wsConnect m c task.id) task.id
      (replayEvents task)).2 ++ liveEvents = _
  rw [hr]
  rfl

/-- Witness for C5: observer `7` joins `taskWithLogs` (two accumulated
lines) on a fresh broadcaster, then one live line is produced. -/
theorem C5_late_joiner_full_replay_witness :
    (7 ∉ clientsOf emptyWs taskWithLogs.id) ∧
    receivedBy 7 ((connectAndReplay allOkSendEnv emptyWs taskWithLogs 7).2 ++
        (broadcastAll allOkSendEnv (connectAndReplay allOkSendEnv emptyWs taskWithLogs 7).1
          taskWithLogs.id [WsEvent.debug "DEBUG" "[10:00:02] live line"]).2) =
      (WsEvent.statusEv TaskStatus.running none ::
        [WsEvent.debug "DEBUG" "[10:00:00] line one",
         WsEvent.debug "DEBUG" "[10:00:01] line two"]) ++
        [WsEvent.debug "DEBUG" "[10:00:02] live line"] := by
  have h := C5_late_joiner_full_replay allOkSendEnv emptyWs taskWithLogs 7
    [WsEvent.debug "DEBUG" "[10:00:02] live line"] (by decide) (by decide)
  exact ⟨by decide, h⟩

/-! ## Cleanup lemmas (shared by C6 and C7) -/

/-- Every session directory is either deleted or recorded as a failure. -/
theorem processSessions_count (env : CleanupEnv) (root app : String) :
    ∀ ss, (processSessions env root app ss).1 +
      (processSessions env root app ss).2.1.length = ss.length := by
  intro ss
  induction ss with
  | nil => rfl
  | cons s rest ih =>
    cases ho : env.rmtreeSession (sessionPathStr root app s) <;>
      simp [processSessions, ho] <;> omega

/-- A failing session deletion is recorded under its full path. -/
theorem processSessions_failures_mem (env : CleanupEnv) (root app : String) :
    ∀ ss s, s ∈ ss → env.rmtreeSession (sessionPathStr root app s) ≠ DelOutcome.ok →
      sessionPathStr root app s ∈ (processSessions env root app ss).2.1 := by
  intro ss
  induction ss with
  | nil => intro s h; simp at h
  | cons s' rest ih =>
    intro s h hne
    rcases List.mem_cons.mp h with h | h
    · subst h
      cases ho : env.rmtreeSession (sessionPathStr root app s) <;>
        simp [processSessions, ho] at hne ⊢
    · cases ho : env.rmtreeSession (sessionPathStr root app s') <;>
        simp [processSessions, ho] <;>
        first
          | exact ih s h hne
          | exact Or.inr (ih s h hne)

/-- The app-directory pass neither counts nor records sessions beyond
what the session loop did. -/
theorem cleanupAppDir_sessions (env : CleanupEnv) (root : String) (a : AppDirState) :
    (cleanupAppDir env root a).1 = (processSessions env root a.name a.sessionDirs).1 ∧
    (cleanupAppDir env root a).2.1 =
      (processSessions env root a.name a.sessionDirs).2.1 := by
  constructor <;>
    (simp only [cleanupAppDir]
     split <;>
       first
         | rfl
         | (split <;> rfl))

/-- Deleted-or-recorded, summed over all app directories. -/
theorem cleanupAppDirs_count (env : CleanupEnv) (root : String) :
    ∀ dirs, (cleanupAppDirs env root dirs).1 +
        (cleanupAppDirs env root dirs).2.1.length =
      (dirs.map (fun a => a.sessionDirs.length)).sum := by
  intro dirs
  induction dirs with
  | nil => rfl
  | cons a rest ih =>
    have ha := cleanupAppDir_sessions env root a
    have hc := processSessions_count env root a.name a.sessionDirs
    simp only [cleanupAppDirs, List.map_cons, List.sum_cons, List.length_append]
    rw [ha.1, ha.2]
    omega

/-- A failing session deletion in any app directory is recorded. -/
theorem cleanupAppDirs_failures_mem (env : CleanupEnv) (root : String) :
    ∀ dirs a, a ∈ dirs → ∀ s, s ∈ a.sessionDirs →
      env.rmtreeSession (sessionPathStr root a.name s) ≠ DelOutcome.ok →
      sessionPathStr root a.name s ∈ (cleanupAppDirs env root dirs).2.1 := by
  intro dirs
  induction dirs with
  | nil => intro a h; simp at h
  | cons a' rest ih =>
    intro a h s hs hne
    simp only [cleanupAppDirs]
    rcases List.mem_cons.mp h with h | h
    · subst h
      exact List.mem_append_left _
        ((cleanupAppDir_sessions env root a).2 ▸
          processSessions_failures_mem env root a.name a.sessionDirs s hs hne)
    · exact List.mem_append_right _ (ih a h s hs hne)

/-- The cleanup report and successor state, projected onto the pieces
computed by the app-directory pass. -/
theorem cleanup_fields (env : CleanupEnv) (root : String) (st : AgentState)
    (fs : CleanupFs) :
    (cleanup_all_sessions env root st fs).1.deletedSessions =
        (cleanupAppDirs env root fs.appDirs).1 ∧
    (cleanup_all_sessions env root st fs).1.deletedTasks = st.tasks.length ∧
    (cleanup_all_sessions env root st fs).1.sessionFailures =
        (cleanupAppDirs env root fs.appDirs).2.1 ∧
    (cleanup_all_sessions env root st fs).1.appFailures =
        (cleanupAppDirs env root fs.appDirs).2.2.1 ∧
    (cleanup_all_sessions env root st fs).2.1.tasks = [] ∧
    (cleanup_all_sessions env root st fs).2.2.appDirs =
        (cleanupAppDirs env root fs.appDirs).2.2.2.1 :=
  ⟨rfl, rfl, rfl, rfl, rfl, rfl⟩

/-- When the OpenCode storage deletion succeeds (and its detection can
re-create a missing directory), no storage failure is flagged and the
storage is gone afterwards. -/
theorem cleanup_oc_ok (env : CleanupEnv) (root : String) (st : AgentState)
    (fs : CleanupFs) (hoc : env.rmtreeOpencode = DelOutcome.ok)
    (hmk : env.opencodeMkdirOk = true) :
    (cleanup_all_sessions env root st fs).1.opencodeFailure = false ∧
    (cleanup_all_sessions env root st fs).1.deletedOpencodeStorage = true ∧
    (cleanup_all_sessions env root st fs).2.2.opencodeStorageExists = false := by
  simp [cleanup_all_sessions, hmk, hoc]

/-- The failure payload of the endpoint response, as built at
`task_controller.py:209-217`. -/
theorem cleanupEndpoint_failures (env : CleanupEnv) (root : String)
    (st : AgentState) (fs : CleanupFs) :
    (cleanupEndpoint env root st fs).1.failures =
      (if (!(cleanup_all_sessions env root st fs).1.sessionFailures.isEmpty ||
           !(cleanup_all_sessions env root st fs).1.appFailures.isEmpty ||
           (cleanup_all_sessions env root st fs).1.opencodeFailure) then
         some { failedSessionDeletions :=
                  (cleanup_all_sessions env root st fs).1.sessionFailures
              , failedAppDeletions :=
                  (cleanup_all_sessions env root st fs).1.appFailures
              , opencodeDeletionFailed :=
                  (cleanup_all_sessions env root st fs).1.opencodeFailure
              , totalFailures :=
                  (cleanup_all_sessions env root st fs).1.sessionFailures.length +
                  (cleanup_all_sessions env root st fs).1.appFailures.length +
                  (if (cleanup_all_sessions env root st fs).1.opencodeFailure
                   then 1 else 0) }
       else none) := rfl

/-- The payload `success` flag of the endpoint response. -/
theorem cleanupEndpoint_success (env : CleanupEnv) (root : String)
    (st : AgentState) (fs : CleanupFs) :
    (cleanupEndpoint env root st fs).1.success =
      (!(!(cleanup_all_sessions env root st fs).1.sessionFailures.isEmpty ||
         !(cleanup_all_sessions env root st fs).1.appFailures.isEmpty ||
         (cleanup_all_sessions env root st fs).1.opencodeFailure)) := rfl

/-- The `has_failures` test of `task_controller.py:201-203` is false
exactly when the failure report is empty. -/
theorem hasFailures_false_iff (sf af : List String) (ocf : Bool) :
    (!sf.isEmpty || !af.isEmpty || ocf) = false ↔
      (sf = [] ∧ af = [] ∧ ocf = false) := by
  simp [List.isEmpty_iff, and_assoc]

/-! ## C6 — bulk cleanup aggregates failures and still returns 200 -/

/-- C6: the cleanup endpoint always answers transport status 200 with
the deleted-task and deleted-session counts; every session directory is
either deleted or recorded (counts add up to the directory total); any
session deletion that raises or fails post-delete verification has its
path in the returned report; and the payload carries a structured
failure object exactly when something failed (`success` is false only
in the payload, never in the transport status). -/
theorem C6_cleanup_aggregates_and_returns_200 (env : CleanupEnv) (root : String)
    (st : AgentState) (fs : CleanupFs) :
    (cleanupEndpoint env root st fs).1.statusCode = 200 ∧
    (cleanupEndpoint env root st fs).1.deletedTasks = st.tasks.length ∧
    (cleanupEndpoint env root st fs).1.deletedSessions +
        (cleanup_all_sessions env root st fs).1.sessionFailures.length =
      (fs.appDirs.map (fun a => a.sessionDirs.length)).sum ∧
    (∀ a, a ∈ fs.appDirs → ∀ s, s ∈ a.sessionDirs →
      env.rmtreeSession (sessionPathStr root a.name s) ≠ DelOutcome.ok →
      sessionPathStr root a.name s ∈
        (cleanup_all_sessions env root st fs).1.sessionFailures) ∧
    ((cleanupEndpoint env root st fs).1.failures = none ↔
      ((cleanup_all_sessions env root st fs).1.sessionFailures = [] ∧
       (cleanup_all_sessions env root st fs).1.appFailures = [] ∧
       (cleanup_all_sessions env root st fs).1.opencodeFailure = false)) ∧
    ((cleanupEndpoint env root st fs).1.success = true ↔
      ((cleanup_all_sessions env root st fs).1.sessionFailures = [] ∧
       (cleanup_all_sessions env root st fs).1.appFailures = [] ∧
       (cleanup_all_sessions env root st fs).1.opencodeFailure = false)) := by
  obtain ⟨h1, h2, h3, h4, _, _⟩ := cleanup_fields env root st fs
  have hiff := hasFailures_false_iff
    (cleanup_all_sessions env root st fs).1.sessionFailures
    (cleanup_all_sessions env root st fs).1.appFailures
    (cleanup_all_sessions env root st fs).1.opencodeFailure
  refine ⟨rfl, ?_, ?_, ?_, ?_, ?_⟩
  · show (cleanup_all_sessions env root st fs).1.deletedTasks = st.tasks.length
    exact h2
  · show (cleanup_all_sessions env root st fs).1.deletedSessions + _ = _
    rw [h1, h3]
    exact cleanupAppDirs_count env root fs.appDirs
  · intro a ha s hs hne
    rw [h3]
    exact cleanupAppDirs_failures_mem env root fs.appDirs a ha s hs hne
  · rw [cleanupEndpoint_failures]
    cases hcase : (!(cleanup_all_sessions env root st fs).1.sessionFailures.isEmpty ||
        !(cleanup_all_sessions env root st fs).1.appFailures.isEmpty ||
        (cleanup_all_sessions env root st fs).1.opencodeFailure) with
    | false => exact ⟨fun _ => hiff.mp hcase, fun _ => by simp⟩
    | true =>
      refine ⟨fun h => by simp at h, fun h => ?_⟩
      rw [hiff.mpr h] at hcase
      exact absurd hcase (by simp)
  · rw [cleanupEndpoint_success, Bool.not_eq_eq_eq_not]
    simpa using hiff

/-- Witness for C6: cleanup over one app directory whose session `x`
fails to delete while `y` succeeds, on a registry holding one task. -/
theorem C6_cleanup_aggregates_witness :
    (cleanupEndpoint failOneCleanupEnv "./s" stWithCompleted fsOneApp).1.statusCode =
      200 ∧
    (cleanupEndpoint failOneCleanupEnv "./s" stWithCompleted fsOneApp).1.deletedTasks =
      stWithCompleted.tasks.length ∧
    (cleanupEndpoint failOneCleanupEnv "./s" stWithCompleted
        fsOneApp).1.deletedSessions +
      (cleanup_all_sessions failOneCleanupEnv "./s" stWithCompleted
        fsOneApp).1.sessionFailures.length = 2 ∧
    "./s/app-a/x" ∈ (cleanup_all_sessions failOneCleanupEnv "./s" stWithCompleted
        fsOneApp).1.sessionFailures ∧
    (cleanupEndpoint failOneCleanupEnv "./s" stWithCompleted fsOneApp).1.success =
      false := by
  have h := C6_cleanup_aggregates_and_returns_200 failOneCleanupEnv "./s"
    stWithCompleted fsOneApp
  exact ⟨h.1, h.2.1, h.2.2.1,
    h.2.2.2.1 { name := "app-a", sessionDirs := ["x", "y"], hasOtherEntries := false }
      (by decide) "x" (by decide) (by decide),
    by decide⟩

/-! ## C7 — bulk cleanup is idempotent -/

/-- With every deletion succeeding, the session loop deletes everything
and records nothing. -/
theorem processSessions_allOk (env : CleanupEnv) (root app : String)
    (hok : ∀ p, env.rmtreeSession p = DelOutcome.ok) :
    ∀ ss, processSessions env root app ss =
      (ss.length, [], [], ss.map (sessionPathStr root app)) := by
  intro ss
  induction ss with
  | nil => rfl
  | cons s rest ih =>
    simp [processSessions, hok (sessionPathStr root app s), ih]

/-- With every deletion succeeding, the surviving app directories are
exactly the ones holding stray non-directory entries, each now with no
session subdirectories. -/
theorem cleanupAppDirs_allOk_kept (env : CleanupEnv) (root : String)
    (hses : ∀ p, env.rmtreeSession p = DelOutcome.ok)
    (happ : ∀ p, env.rmdirApp p = DelOutcome.ok) :
    ∀ dirs, (cleanupAppDirs env root dirs).2.2.2.1 =
      (dirs.filter (fun a => a.hasOtherEntries)).map
        (fun a => { a with sessionDirs := [] }) := by
  intro dirs
  induction dirs with
  | nil => rfl
  | cons a rest ih =>
    have hps := processSessions_allOk env root a.name hses a.sessionDirs
    cases hother : a.hasOtherEntries with
    | false =>
      simp only [cleanupAppDirs, cleanupAppDir, hps, List.filter_cons, hother]
      simp [happ (appPathStr root a.name), ih]
    | true =>
      simp only [cleanupAppDirs, cleanupAppDir, hps, List.filter_cons, hother]
      simp [ih, hother]

/-- Over app directories with no sessions left and stray entries
keeping them alive, a cleanup pass deletes nothing and records nothing. -/
theorem cleanupAppDirs_emptyDirs (env : CleanupEnv) (root : String) :
    ∀ dirs, (∀ a, a ∈ dirs → a.sessionDirs = [] ∧ a.hasOtherEntries = true) →
      (cleanupAppDirs env root dirs).1 = 0 ∧
      (cleanupAppDirs env root dirs).2.1 = [] ∧
      (cleanupAppDirs env root dirs).2.2.1 = [] := by
  intro dirs
  induction dirs with
  | nil => intro _; exact ⟨rfl, rfl, rfl⟩
  | cons a rest ih =>
    intro h
    obtain ⟨hses, hother⟩ := h a (List.mem_cons_self a rest)
    obtain ⟨ih1, ih2, ih3⟩ := ih (fun a' ha' => h a' (List.mem_cons_of_mem a ha'))
    simp only [cleanupAppDirs, cleanupAppDir, hses, hother, processSessions]
    simp [ih1, ih2, ih3]

/-- C7: after a bulk cleanup in an environment where every deletion
succeeds, a second bulk cleanup reports zero deleted sessions, zero
deleted tasks and an empty failure report. -/
theorem C7_cleanup_idempotent (env : CleanupEnv) (root : String)
    (st : AgentState) (fs : CleanupFs)
    (hses : ∀ p, env.rmtreeSession p = DelOutcome.ok)
    (happ : ∀ p, env.rmdirApp p = DelOutcome.ok)
    (hoc : env.rmtreeOpencode = DelOutcome.ok)
    (hmk : env.opencodeMkdirOk = true) :
    (cleanup_all_sessions env root (cleanup_all_sessions env root st fs).2.1
        (cleanup_all_sessions env root st fs).2.2).1.deletedSessions = 0 ∧
    (cleanup_all_sessions env root (cleanup_all_sessions env root st fs).2.1
        (cleanup_all_sessions env root st fs).2.2).1.deletedTasks = 0 ∧
    (cleanup_all_sessions env root (cleanup_all_sessions env root st fs).2.1
        (cleanup_all_sessions env root st fs).2.2).1.sessionFailures = [] ∧
    (cleanup_all_sessions env root (cleanup_all_sessions env root st fs).2.1
        (cleanup_all_sessions env root st fs).2.2).1.appFailures = [] ∧
    (cleanup_all_sessions env root (cleanup_all_sessions env root st fs).2.1
        (cleanup_all_sessions env root st fs).2.2).1.opencodeFailure = false := by
  obtain ⟨_, _, _, _, hst1, hfs1⟩ := cleanup_fields env root st fs
  obtain ⟨hc1, hc2, hc3, hc4, _, _⟩ := cleanup_fields env root
    (cleanup_all_sessions env root st fs).2.1 (cleanup_all_sessions env root st fs).2.2
  have hkept := cleanupAppDirs_allOk_kept env root hses happ fs.appDirs
  have hdirs : ∀ a, a ∈ (cleanup_all_sessions env root st fs).2.2.appDirs →
      a.sessionDirs = [] ∧ a.hasOtherEntries = true := by
    intro a ha
    rw [hfs1, hkept] at ha
    obtain ⟨a', ha', rfl⟩ := List.mem_map.mp ha
    exact ⟨rfl, (List.mem_filter.mp ha').2⟩
  obtain ⟨he1, he2, he3⟩ := cleanupAppDirs_emptyDirs env root
    (cleanup_all_sessions env root st fs).2.2.appDirs hdirs
  refine ⟨?_, ?_, ?_, ?_, ?_⟩
  · rw [hc1]; exact he1
  · rw [hc2, hst1]; rfl
  · rw [hc3]; exact he2
  · rw [hc4]; exact he3
  · exact (cleanup_oc_ok env root _ _ hoc hmk).1

/-- Witness for C7: two runs over a disk with two app directories (one
with stray files) and one registered task; the second run reports
nothing deleted and no failures. -/
theorem C7_cleanup_idempotent_witness :
    (∀ p, allOkCleanupEnv.rmtreeSession p = DelOutcome.ok) ∧
    (cleanup_all_sessions allOkCleanupEnv "./s"
        (cleanup_all_sessions allOkCleanupEnv "./s" stWithCompleted fsTwoApps).2.1
        (cleanup_all_sessions allOkCleanupEnv "./s" stWithCompleted
          fsTwoApps).2.2).1.deletedSessions = 0 ∧
    (cleanup_all_sessions allOkCleanupEnv "./s"
        (cleanup_all_sessions allOkCleanupEnv "./s" stWithCompleted fsTwoApps).2.1
        (cleanup_all_sessions allOkCleanupEnv "./s" stWithCompleted
          fsTwoApps).2.2).1.deletedTasks = 0 ∧
    (cleanup_all_sessions allOkCleanupEnv "./s"
        (cleanup_all_sessions allOkCleanupEnv "./s" stWithCompleted fsTwoApps).2.1
        (cleanup_all_sessions allOkCleanupEnv "./s" stWithCompleted
          fsTwoApps).2.2).1.sessionFailures = [] ∧
    (cleanup_all_sessions allOkCleanupEnv "./s"
        (cleanup_all_sessions allOkCleanupEnv "./s" stWithCompleted fsTwoApps).2.1
        (cleanup_all_sessions allOkCleanupEnv "./s" stWithCompleted
          fsTwoApps).2.2).1.opencodeFailure = false := by
  have h := C7_cleanup_idempotent allOkCleanupEnv "./s" stWithCompleted fsTwoApps
    (fun _ => rfl) (fun _ => rfl) rfl rfl
  exact ⟨fun _ => rfl, h.1, h.2.1, h.2.2.1, h.2.2.2.2⟩

/-! ## SHA-1 embedding validation against the standard test vectors -/

set_option maxRecDepth 1000000 in
/-- The SHA-1 embedding matches the standard digest of the empty string. -/
theorem sha1Hex_empty_vector :
    sha1Hex "" = "da39a3ee5e6b4b0d3255bfef95601890afd80709" := by decide

set_option maxRecDepth 1000000 in
/-- The SHA-1 embedding matches the standard digest of `"abc"`. -/
theorem sha1Hex_abc_vector :
    sha1Hex "abc" = "a9993e364706816aba3e25717850c26c9cd0d89d" := by decide

end AgentRuntime

